import Mathlib

/-!
Verification of the Function Consensus Reactor (fnConsensus package).

The reactor source (`reactor.go`) is embedded faithfully below.  The
`FnVoteSet` data structure and its methods are declared in a file that is
not part of this checkout; those definitions are modelled from the
specification (each such definition carries a doc comment starting with
`Modelled from the spec:`).  Durations are modelled in whole seconds,
byte strings as lists of naturals, and Go maps as association lists.
-/

set_option autoImplicit false

namespace FnConsensus

/-! ## Definitions: the embedded data model, reactor functions and fixtures -/

/-- Byte strings (Go `[]byte`) are modelled as lists of naturals. -/
abbrev Bytes := List Nat

/-- Lookup in an association list (Go map read that distinguishes presence). -/
def alookup {α : Type} (m : List (String × α)) (k : String) : Option α :=
  (m.find? (fun p => p.1 == k)).map (·.2)

/-- Remove every binding of a key (Go `delete`). -/
def aerase {α : Type} : List (String × α) → String → List (String × α)
  | [], _ => []
  | p :: m, k => if p.1 == k then aerase m k else p :: aerase m k

/-- Set the binding of a key (Go map write). -/
def ainsert {α : Type} (m : List (String × α)) (k : String) (v : α) : List (String × α) :=
  (k, v) :: aerase m k

/-- Modelled from the spec: each validator has an address (bytes) and voting power (int64). -/
structure Validator where
  address : Bytes
  power : Int
deriving DecidableEq, Repr

/-- Modelled from the spec: the totally ordered, indexable validator set supplied by the host chain. -/
structure ValidatorSet where
  validators : List Validator
deriving DecidableEq, Repr

namespace ValidatorSet

/-- Modelled from the spec: number of validators in the set. -/
def Size (vs : ValidatorSet) : Nat := vs.validators.length

/-- Modelled from the spec: index of the validator with the given address, `-1` if absent. -/
def GetByAddress (vs : ValidatorSet) (addr : Bytes) : Int :=
  match vs.validators.findIdx? (fun v => v.address == addr) with
  | some i => Int.ofNat i
  | none => -1

/-- Modelled from the spec: total voting power of the set. -/
def TotalVotingPower (vs : ValidatorSet) : Int :=
  (vs.validators.map (·.power)).sum

/-- Modelled from the spec: deterministic digest of the validator set (addresses and powers).
The reactor only ever compares the digest for equality. -/
def hash (vs : ValidatorSet) : Bytes :=
  (vs.validators.map (fun v => v.address.length :: (v.address ++ [v.power.natAbs]))).flatten

end ValidatorSet

def StartingNonce : Int := 1

def CommitRoutineExecutionBufferSeconds : Int := 1

def ProgressIntervalInSeconds : Int := 60 + CommitRoutineExecutionBufferSeconds

/-- `ExpiresIn = 50s + CommitRoutineExecutionBuffer` (51 seconds). -/
def ExpiresIn : Int := 50 + CommitRoutineExecutionBufferSeconds

/-- `ExpiresInForSync = 40s`. -/
def ExpiresInForSync : Int := 40

def MaxContextSize : Nat := 1024

def MaxAllowedTimeDriftInFuture : Int := 10

def Maj23SigningThreshold : String := "Maj23"

def AllSigningThreshold : String := "All"

/-- Go `%` on int64 truncates toward zero; `Int.tmod` is the same operation. -/
def goMod (a b : Int) : Int := Int.tmod a b

/-- Modelled from the spec: a validator slot is Unvoted, Agree or Disagree. -/
inductive VoteType where
  | unvoted
  | agree
  | disagree
deriving DecidableEq, Repr

/-- Modelled from the spec: the cursor `{ lastActiveValidators[], currentTurn }`
identifying the expected proposer. -/
structure ProposalInfo where
  LastActiveValidators : List Bytes
  CurrentTurn : Nat
deriving DecidableEq, Repr

/-- Modelled from the spec: `CurrentProposer()` returns `lastActiveValidators[currentTurn]`. -/
def ProposalInfo.CurrentProposer (p : ProposalInfo) : Bytes :=
  p.LastActiveValidators.getD p.CurrentTurn []

/-- Modelled from the spec: one validator's execution result handed to `AddVote`. -/
structure FnIndividualExecutionResponse where
  Error : String
  Hash : Bytes
  OracleSignature : Bytes
  Status : Nat
deriving DecidableEq, Repr

/-- Modelled from the spec: payload request part `{FnID}`. -/
structure FnExecutionRequest where
  FnID : String
deriving DecidableEq, Repr

/-- Modelled from the spec: payload response part `{hash, oracleSignatures[]}`;
`OracleSignatures` has one (possibly empty) entry per validator index. -/
structure FnExecutionResponse where
  Hash : Bytes
  OracleSignatures : List Bytes
deriving DecidableEq, Repr

/-- Modelled from the spec: `{ request, response }` payload of a vote set. -/
structure FnVotePayload where
  Request : FnExecutionRequest
  Response : FnExecutionResponse
deriving DecidableEq, Repr

/-- Modelled from the spec: the aggregating vote-set record.  `Votes` has one
slot per validator index of the bound set and `ValidatorAddresses` the matching
addresses.  `SignaturesValid` abstracts cryptographic verification of the
per-slot signatures (the reactor only ever observes whether they all verify). -/
structure FnVoteSet where
  ID : String
  Nonce : Int
  ChainID : String
  CreationTime : Int
  ValidatorsHash : Bytes
  ExecutionContext : Bytes
  Payload : FnVotePayload
  Votes : List VoteType
  ValidatorAddresses : List Bytes
  ProposalInfo : Option ProposalInfo
  SignaturesValid : Bool
deriving DecidableEq, Repr

/-- Voting power of the slots selected by `pred`, with votes zipped against the
bound validator list. -/
def votePower (pred : VoteType → Bool) (votes : List VoteType) (vals : List Validator) : Int :=
  (((votes.zip vals).filter (fun x => pred x.1)).map (fun x => x.2.power)).sum

/-- Modelled from the spec: `Maj23` holds on strictly more than two thirds of
the total power, `All` on all of it; other thresholds never hold (the
configuration is supposed to be validated at startup). -/
def thresholdMet (threshold : String) (part total : Int) : Bool :=
  if threshold == Maj23SigningThreshold then decide (3 * part > 2 * total)
  else if threshold == AllSigningThreshold then part == total
  else false

namespace FnVoteSet

/-- Modelled from the spec: the `FnID` of the subject callback. -/
def GetFnID (vs : FnVoteSet) : String := vs.Payload.Request.FnID

/-- Modelled from the spec: the message hash all Agree signatures attest. -/
def GetMessageHash (vs : FnVoteSet) : Bytes := vs.Payload.Response.Hash

/-- Modelled from the spec: number of non-Unvoted slots. -/
def NumberOfVotes (vs : FnVoteSet) : Nat :=
  (vs.Votes.filter (fun v => v != VoteType.unvoted)).length

/-- Modelled from the spec: number of Agree slots. -/
def NumberOfAgreeVotes (vs : FnVoteSet) : Nat :=
  (vs.Votes.filter (fun v => v == VoteType.agree)).length

/-- Modelled from the spec: whether the slot of validator index `i` already voted. -/
def HaveWeAlreadySigned (vs : FnVoteSet) (i : Int) : Bool :=
  0 ≤ i && i < Int.ofNat vs.Votes.length &&
    (vs.Votes.getD i.toNat VoteType.unvoted != VoteType.unvoted)

/-- Modelled from the spec: the vote set expires `expiresIn` seconds after its
creation time (`now` is the reading of the wall clock, passed explicitly). -/
def IsExpired (vs : FnVoteSet) (expiresIn : Int) (now : Int) : Bool :=
  decide (now ≥ vs.CreationTime + expiresIn)

/-- Modelled from the spec: voting power of voted slots meets the threshold. -/
def HasConverged (vs : FnVoteSet) (threshold : String) (vals : ValidatorSet) : Bool :=
  thresholdMet threshold (votePower (fun v => v != VoteType.unvoted) vs.Votes vals.validators)
    vals.TotalVotingPower

/-- Modelled from the spec: voting power of Agree slots meets the threshold. -/
def IsAgree (vs : FnVoteSet) (threshold : String) (vals : ValidatorSet) : Bool :=
  thresholdMet threshold (votePower (fun v => v == VoteType.agree) vs.Votes vals.validators)
    vals.TotalVotingPower

/-- Modelled from the spec: voting power of Disagree slots meets the threshold. -/
def IsDisagree (vs : FnVoteSet) (threshold : String) (vals : ValidatorSet) : Bool :=
  thresholdMet threshold (votePower (fun v => v == VoteType.disagree) vs.Votes vals.validators)
    vals.TotalVotingPower

/-- Dense rank of index `i` among Agree voters: number of Agree slots before `i`. -/
def agreeRank (votes : List VoteType) (i : Nat) : Nat :=
  ((votes.take i).filter (fun v => v == VoteType.agree)).length

/-- Modelled from the spec: the dense rank among Agree voters of validator
index `i`; errors (`none`) when `i` is out of range or its slot is not Agree. -/
def GetAgreeVoteIndexForValidatorIndex (vs : FnVoteSet) (i : Int) : Option Nat :=
  if 0 ≤ i ∧ i.toNat < vs.Votes.length then
    if vs.Votes.getD i.toNat VoteType.unvoted == VoteType.agree then
      some (agreeRank vs.Votes i.toNat)
    else none
  else none

/-- Modelled from the spec: addresses of the validators whose slot voted. -/
def ActiveValidators (vs : FnVoteSet) : List Bytes :=
  ((vs.ValidatorAddresses.zip vs.Votes).filter (fun x => x.2 != VoteType.unvoted)).map (·.1)

/-- Modelled from the spec: `IsValid` rejects a vote set whose `ChainID`
mismatches, whose `CreationTime` is more than `MaxAllowedTimeDriftInFuture` in
the future, whose context exceeds `maxContextSize`, whose `ValidatorsHash` does
not match the provided set (with one vote slot per validator), whose `FnID` is
not registered, or any of whose signatures do not verify; with
`checkExpiration` it additionally rejects expired vote sets. -/
def IsValid (vs : FnVoteSet) (chainID : String) (maxContextSize : Nat)
    (checkExpiration : Bool) (expiresIn : Int) (vals : ValidatorSet)
    (registeredIDs : List String) (now : Int) : Bool :=
  vs.ChainID == chainID &&
  decide (vs.CreationTime ≤ now + MaxAllowedTimeDriftInFuture) &&
  decide (vs.ExecutionContext.length ≤ maxContextSize) &&
  vs.ValidatorsHash == vals.hash &&
  vs.Votes.length == vals.Size &&
  registeredIDs.contains vs.GetFnID &&
  vs.SignaturesValid &&
  (!checkExpiration || !vs.IsExpired expiresIn now)

/-- Modelled from the spec: `AddVote` fails if the nonce differs from the vote
set's nonce or the slot already voted; on success it sets the slot and, for
Agree, stores the oracle signature at the validator's index. -/
def AddVote (vs : FnVoteSet) (nonce : Int) (resp : FnIndividualExecutionResponse)
    (_vals : ValidatorSet) (ownIndex : Int) (voteType : VoteType) : Option FnVoteSet :=
  if nonce != vs.Nonce then none
  else if !(0 ≤ ownIndex && ownIndex < Int.ofNat vs.Votes.length) then none
  else if vs.Votes.getD ownIndex.toNat VoteType.unvoted != VoteType.unvoted then none
  else
    some { vs with
      Votes := vs.Votes.set ownIndex.toNat voteType,
      Payload := { vs.Payload with Response := { vs.Payload.Response with
        OracleSignatures :=
          if voteType == VoteType.agree then
            vs.Payload.Response.OracleSignatures.set ownIndex.toNat resp.OracleSignature
          else vs.Payload.Response.OracleSignatures } } }

/-- Modelled from the spec: `Merge` fails if `ID`, `FnID`, `Nonce`, `ChainID`,
`CreationTime`, `ExecutionContext`, the message hash or `ValidatorsHash`
differ; otherwise every slot that is Unvoted locally and voted remotely (with
verifying signatures) is adopted, together with its oracle signature, and the
returned flag says whether anything changed. -/
def Merge (vs : FnVoteSet) (_vals : ValidatorSet) (other : FnVoteSet) :
    Option (Bool × FnVoteSet) :=
  if vs.ID != other.ID || vs.GetFnID != other.GetFnID || vs.Nonce != other.Nonce ||
     vs.ChainID != other.ChainID || vs.CreationTime != other.CreationTime ||
     vs.ExecutionContext != other.ExecutionContext ||
     vs.GetMessageHash != other.GetMessageHash ||
     vs.ValidatorsHash != other.ValidatorsHash then none
  else
    let adopt := fun (ours theirs : VoteType) =>
      ours == VoteType.unvoted && theirs != VoteType.unvoted && other.SignaturesValid
    let changed := (vs.Votes.zip other.Votes).any (fun p => adopt p.1 p.2)
    let newVotes := (vs.Votes.zip other.Votes).map (fun p => if adopt p.1 p.2 then p.2 else p.1)
    let newSigs :=
      List.zipWith (fun (p q : VoteType × Bytes) => if adopt p.1 q.1 then q.2 else p.2)
        (vs.Votes.zip vs.Payload.Response.OracleSignatures)
        (other.Votes.zip other.Payload.Response.OracleSignatures)
    some (changed, { vs with
      Votes := newVotes,
      SignaturesValid := vs.SignaturesValid && (!changed || other.SignaturesValid),
      Payload := { vs.Payload with Response := { vs.Payload.Response with
        OracleSignatures := newSigs } } })

end FnVoteSet

structure OverrideValidator where
  Address : Bytes
  Power : Int
deriving DecidableEq, Repr

structure ReactorConfig where
  OverrideValidatorSet : Option (List OverrideValidator)
  FnVoteSigningThreshold : String
deriving DecidableEq, Repr

/-- `func (r *ReactorConfig) IsValid() bool` — transcribed verbatim from the
source, including the nil-receiver disjunct (`none` stands for the nil
pointer). -/
def ReactorConfig.IsValid (r : Option ReactorConfig) : Bool :=
  match r with
  | none => true
  | some r =>
      r.FnVoteSigningThreshold != AllSigningThreshold &&
      r.FnVoteSigningThreshold != Maj23SigningThreshold

inductive ReactorError where
  | invalidReactorConfiguration
deriving DecidableEq, Repr

/-- `NewFnConsensusReactor` as far as configuration validation is concerned:
it fails with `ErrInvalidReactorConfiguration` exactly when `cfg.IsValid()`
is false, and otherwise constructs the reactor. -/
def NewFnConsensusReactor (cfg : Option ReactorConfig) : Except ReactorError Unit :=
  if !(ReactorConfig.IsValid cfg) then Except.error ReactorError.invalidReactorConfiguration
  else Except.ok ()

/-- The pluggable `Fn` callback contract.  `PrepareContext` and
`GetMessageAndSignature` are data (their results for this run), errors are
`none`; `SubmitMultiSignedMessage` is recorded as an effect by the reactor
functions below, and `MapMessage` only matters through success or failure. -/
structure Fn where
  prepareContext : Option (Bool × Bytes)
  getMessageAndSignature : Bytes → Option (Bytes × Bytes)
  mapMessageOk : Bool

/-- The durable `ReactorState` record (state.go is outside this checkout; the
fields are modelled from the spec's table).  Go map values of pointer type are
modelled as `Option` values. -/
structure ReactorState where
  CurrentVoteSets : List (String × FnVoteSet)
  PreviousTimedOutVoteSets : List (String × FnVoteSet)
  PreviousMaj23VoteSets : List (String × FnVoteSet)
  CurrentNonces : List (String × Int)
  CurrentProposalInfo : List (String × Option ProposalInfo)
  PreviousValidatorSet : Option ValidatorSet
deriving DecidableEq, Repr

/-- Reading `state.CurrentProposalInfo[fnID]`: a Go map of pointers yields nil
both for a missing key and for a stored nil. -/
def ReactorState.getProposalInfo (st : ReactorState) (fnID : String) : Option ProposalInfo :=
  (alookup st.CurrentProposalInfo fnID).join

/-- Reading `state.CurrentNonces[fnID]` without the `ok` flag yields the Go
zero value 0 for a missing key. -/
def ReactorState.nonceOr0 (st : ReactorState) (fnID : String) : Int :=
  (alookup st.CurrentNonces fnID).getD 0

/-- The `FnConsensusReactor` fields the embedded functions read:
`getValidatorSet()` is snapshotted in `validators`, the peer map in
`connectedPeers`, and `cfg.FnVoteSigningThreshold` in `threshold`. -/
structure Reactor where
  chainID : String
  fnRegistry : List (String × Fn)
  myAddr : Bytes
  connectedPeers : List String
  threshold : String
  validators : ValidatorSet

/-- `FnRegistry.GetAll()`: the registered FnIDs. -/
def Reactor.registryIDs (f : Reactor) : List String := f.fnRegistry.map (·.1)

/-- `areWeValidator`: index of our address in the set, `-1` if absent
(reactor.go lines 211-214). -/
def Reactor.amIValidator (f : Reactor) : Bool × Int :=
  let validatorIndex := f.validators.GetByAddress f.myAddr
  (validatorIndex != -1, validatorIndex)

/-- `calculateMessageHash` wraps SHA-512; it is modelled as an injective
tagging of the message (the reactor only compares hashes for equality). -/
def calculateMessageHash (message : Bytes) : Bytes := message.length :: message

/-- `getNextProposalInfo`, transcribed from the source.  Note that in the
final branch the source advances `CurrentTurn` on the freshly allocated
`nextProposalInfo` (whose `LastActiveValidators` is still the zero value `[]`),
so the bound used for the wrap-around is the length of the empty list. -/
def getNextProposalInfo (fnID : String) (st : ReactorState) (currentValidatorSet : ValidatorSet) :
    Option ProposalInfo :=
  let currentProposalInfo := st.getProposalInfo fnID
  match alookup st.PreviousMaj23VoteSets fnID with
  | none => none
  | some lastMaj23VoteSet =>
    if lastMaj23VoteSet.ValidatorsHash != currentValidatorSet.hash then
      some { LastActiveValidators := currentValidatorSet.validators.map (·.address),
             CurrentTurn := 0 }
    else
      let lastMaj23ActiveValidators := lastMaj23VoteSet.ActiveValidators
      let areActiveValidatorsUnchanged :=
        match currentProposalInfo with
        | none => false
        | some cpi => lastMaj23ActiveValidators == cpi.LastActiveValidators
      if !areActiveValidatorsUnchanged then
        some { LastActiveValidators := lastMaj23ActiveValidators, CurrentTurn := 0 }
      else
        match currentProposalInfo with
        | none => none
        | some cpi =>
          let nextProposalInfo : ProposalInfo := { LastActiveValidators := [], CurrentTurn := 0 }
          let turn := cpi.CurrentTurn + 1
          let turn := if turn ≥ nextProposalInfo.LastActiveValidators.length then 0 else turn
          some { nextProposalInfo with CurrentTurn := turn }

/-- `compareVoteSets`, transcribed from the source. -/
def compareVoteSets (f : Reactor) (remoteVoteSet : FnVoteSet) (currentVoteSet : Option FnVoteSet)
    (currentNonce : Int) (currentValidators : ValidatorSet) : Int :=
  match currentVoteSet with
  | none =>
    if currentNonce == remoteVoteSet.Nonce then 1
    else if remoteVoteSet.HasConverged f.threshold currentValidators then 1
    else -1
  | some currentVoteSet =>
    if currentVoteSet.ID == remoteVoteSet.ID then 0
    else
      let currentVoteSetMaj23Agree := currentVoteSet.IsAgree f.threshold currentValidators
      let currentVoteSetMaj23Disagree := currentVoteSet.IsDisagree f.threshold currentValidators
      let currentVoteSetMaj23 := currentVoteSetMaj23Agree || currentVoteSetMaj23Disagree
      let remoteVoteSetMaj23Agree := remoteVoteSet.IsAgree f.threshold currentValidators
      let remoteVoteSetMaj23Disagree := remoteVoteSet.IsDisagree f.threshold currentValidators
      let remoteVoteSetMaj23 := remoteVoteSetMaj23Agree || remoteVoteSetMaj23Disagree
      if currentVoteSetMaj23 && !remoteVoteSetMaj23 then -1
      else if !currentVoteSetMaj23 && remoteVoteSetMaj23 then 1
      else if !currentVoteSetMaj23 && !remoteVoteSetMaj23 then -1
      else if currentVoteSetMaj23Agree && !remoteVoteSetMaj23Agree then -1
      else if !currentVoteSetMaj23Agree && remoteVoteSetMaj23Agree then 1
      else if !currentVoteSetMaj23Agree && !remoteVoteSetMaj23Agree then -1
      else
        let currentNumberOfVotes := currentVoteSet.NumberOfVotes
        let currentNumberOfAgreeVotes := currentVoteSet.NumberOfAgreeVotes
        let remoteNumberOfVotes := remoteVoteSet.NumberOfVotes
        let remoteNumberOfAgreeVotes := remoteVoteSet.NumberOfAgreeVotes
        if remoteNumberOfVotes < currentNumberOfVotes then -1
        else if remoteNumberOfVotes > currentNumberOfVotes then 1
        else if remoteNumberOfAgreeVotes < currentNumberOfAgreeVotes then -1
        else if remoteNumberOfAgreeVotes > currentNumberOfAgreeVotes then 1
        else if currentVoteSet.CreationTime > remoteVoteSet.CreationTime then -1
        else if currentVoteSet.CreationTime < remoteVoteSet.CreationTime then 1
        else -1

structure CommitOutcome where
  state : ReactorState
  submitted : Bool
  maj23BroadcastPeers : List String
deriving DecidableEq, Repr

/-- State change of the non-converged commit branch: archive into
`PreviousTimedOutVoteSets` and clear the current slot. -/
def commitTimedOutState (st : ReactorState) (fnID : String) (cvs : FnVoteSet) : ReactorState :=
  { st with
    PreviousTimedOutVoteSets := ainsert st.PreviousTimedOutVoteSets fnID cvs,
    CurrentVoteSets := aerase st.CurrentVoteSets fnID }

/-- State change of the converged commit branch: increment the nonce, record
the validator set and the Maj23 vote set, clear the current slot. -/
def commitAdvanceState (st : ReactorState) (fnID : String) (cvs : FnVoteSet)
    (vals : ValidatorSet) : ReactorState :=
  { st with
    CurrentNonces := ainsert st.CurrentNonces fnID (st.nonceOr0 fnID + 1),
    PreviousValidatorSet := some vals,
    PreviousMaj23VoteSets := ainsert st.PreviousMaj23VoteSets fnID cvs,
    CurrentVoteSets := aerase st.CurrentVoteSets fnID }

/-- `handleCommit`, transcribed from the source.  A nil current vote set would
make the Go `IsValid` call fault; it is modelled as the invalid early return.
`submitted` records whether `Fn.SubmitMultiSignedMessage` was called and
`maj23BroadcastPeers` who was sent the previous Maj23 vote set. -/
def handleCommit (f : Reactor) (st : ReactorState) (fnIDToMonitor : String) (now : Int) :
    CommitOutcome :=
  match alookup f.fnRegistry fnIDToMonitor with
  | none => ⟨st, false, []⟩
  | some _fn =>
    let currentValidators := f.validators
    let areWe := (f.amIValidator).1
    let ownValidatorIndex := (f.amIValidator).2
    match alookup st.CurrentVoteSets fnIDToMonitor with
    | none => ⟨st, false, []⟩
    | some currentVoteSet =>
      let currentNonce := st.nonceOr0 fnIDToMonitor
      if !(currentVoteSet.IsValid f.chainID MaxContextSize true ExpiresIn currentValidators
            f.registryIDs now) then ⟨st, false, []⟩
      else if !(currentVoteSet.HasConverged f.threshold currentValidators) then
        let st1 := commitTimedOutState st fnIDToMonitor currentVoteSet
        match alookup st1.PreviousMaj23VoteSets fnIDToMonitor with
        | some _ => ⟨st1, false, f.connectedPeers⟩
        | none => ⟨st1, false, []⟩
      else
        if areWe && currentVoteSet.IsAgree f.threshold currentValidators then
          match currentVoteSet.GetAgreeVoteIndexForValidatorIndex ownValidatorIndex with
          | none => ⟨st, false, []⟩
          | some agreeVoteIndex =>
            let submitted :=
              goMod currentNonce (currentVoteSet.NumberOfAgreeVotes : Int) ==
                (agreeVoteIndex : Int)
            ⟨commitAdvanceState st fnIDToMonitor currentVoteSet currentValidators, submitted, []⟩
        else
          ⟨commitAdvanceState st fnIDToMonitor currentVoteSet currentValidators, false, []⟩

structure Maj23Outcome where
  state : ReactorState
  broadcastPeers : List String
deriving DecidableEq, Repr

/-- `handleMaj23VoteSetChannel`, transcribed from the source.  The message is
taken already unmarshalled (a malformed message is dropped before any state
change).  `broadcastPeers` records who `currentMaj23VoteSet` was re-sent to. -/
def handleMaj23VoteSetChannel (f : Reactor) (st : ReactorState) (_sender : String)
    (remoteMaj23VoteSet : FnVoteSet) (now : Int) : Maj23Outcome :=
  let currentValidatorSet := f.validators
  let previousValidatorSet := st.PreviousValidatorSet
  let signingSet? :=
    if remoteMaj23VoteSet.IsValid f.chainID MaxContextSize false ExpiresInForSync
        currentValidatorSet f.registryIDs now then
      some currentValidatorSet
    else
      match previousValidatorSet with
      | none => none
      | some prev =>
        if remoteMaj23VoteSet.IsValid f.chainID MaxContextSize false ExpiresInForSync prev
            f.registryIDs now then some prev
        else none
  match signingSet? with
  | none => ⟨st, []⟩
  | some validatorSetWhichSignedRemoteVoteSet =>
    let remoteFnID := remoteMaj23VoteSet.GetFnID
    let currentNonce := (alookup st.CurrentNonces remoteFnID).getD 1
    let currentMaj23VoteSet := alookup st.PreviousMaj23VoteSets remoteFnID
    if !(remoteMaj23VoteSet.IsExpired ExpiresIn now) then ⟨st, []⟩
    else if !(remoteMaj23VoteSet.HasConverged f.threshold
        validatorSetWhichSignedRemoteVoteSet) then ⟨st, []⟩
    else if remoteMaj23VoteSet.Nonce < currentNonce then
      if remoteMaj23VoteSet.Nonce == currentNonce - 1 then
        if currentMaj23VoteSet.isNone then
          ⟨{ st with
              PreviousMaj23VoteSets :=
                ainsert st.PreviousMaj23VoteSets remoteFnID remoteMaj23VoteSet,
              PreviousValidatorSet := some validatorSetWhichSignedRemoteVoteSet,
              CurrentProposalInfo :=
                ainsert st.CurrentProposalInfo remoteFnID remoteMaj23VoteSet.ProposalInfo }, []⟩
        else ⟨st, []⟩
      else ⟨st, []⟩
    else
      ⟨{ st with
          PreviousMaj23VoteSets :=
            ainsert st.PreviousMaj23VoteSets remoteFnID remoteMaj23VoteSet,
          PreviousValidatorSet := some validatorSetWhichSignedRemoteVoteSet,
          CurrentNonces := ainsert st.CurrentNonces remoteFnID (remoteMaj23VoteSet.Nonce + 1),
          CurrentProposalInfo :=
            ainsert st.CurrentProposalInfo remoteFnID remoteMaj23VoteSet.ProposalInfo },
        f.connectedPeers⟩

structure VoteSetOutcome where
  state : ReactorState
  gossipPeers : List String
deriving DecidableEq, Repr

/-- Lines 830-909 of the source: the own-vote attempt followed by the gossip
fan-out, given the values the switch on `compareVoteSets` produced.  The
current vote set is a pointer into the state in Go, so every mutation of it is
written back to `CurrentVoteSets[fnID]` here. -/
def voteThenGossip (f : Reactor) (st : ReactorState) (sender : String) (fnID : String)
    (currentVoteSet : FnVoteSet) (currentNonce : Int)
    (didWeContribute hasOurVoteSetChanged : Bool) : VoteSetOutcome :=
  let areWe := (f.amIValidator).1
  let ownValidatorIndex := (f.amIValidator).2
  let afterVote :=
    if areWe && !(currentVoteSet.HaveWeAlreadySigned ownValidatorIndex) then
      match alookup f.fnRegistry fnID with
      | none => none
      | some fn =>
        match fn.getMessageAndSignature currentVoteSet.ExecutionContext with
        | none => none
        | some (message, signature) =>
          let hash := calculateMessageHash message
          let areWeAgreed := currentVoteSet.GetMessageHash == hash
          if !fn.mapMessageOk then none
          else if areWeAgreed then
            match currentVoteSet.AddVote currentNonce
                ⟨"", hash, signature, 0⟩ f.validators ownValidatorIndex VoteType.agree with
            | none => none
            | some newVoteSet => some (newVoteSet, true, true)
          else
            match currentVoteSet.AddVote currentNonce
                ⟨"", hash, [], 0⟩ f.validators ownValidatorIndex VoteType.disagree with
            | none => none
            | some newVoteSet => some (newVoteSet, true, true)
    else some (currentVoteSet, didWeContribute, hasOurVoteSetChanged)
  match afterVote with
  | none => ⟨st, []⟩
  | some (voteSet, didWeContribute, hasOurVoteSetChanged) =>
    let st := { st with CurrentVoteSets := ainsert st.CurrentVoteSets fnID voteSet }
    if !hasOurVoteSetChanged then ⟨st, []⟩
    else
      ⟨st, f.connectedPeers.filter (fun peerID => didWeContribute || peerID != sender)⟩

/-- `handleVoteSetChannelMessage`, transcribed from the source.  The message is
taken already unmarshalled.  On the error paths after a state mutation the
mutation is kept (the Go state is mutated in place before the `return`). -/
def handleVoteSetChannelMessage (f : Reactor) (st : ReactorState) (sender : String)
    (remoteVoteSet : FnVoteSet) (now : Int) : VoteSetOutcome :=
  let currentValidators := f.validators
  if !(remoteVoteSet.IsValid f.chainID MaxContextSize true ExpiresInForSync currentValidators
        f.registryIDs now) then ⟨st, []⟩
  else
    let fnID := remoteVoteSet.GetFnID
    let (currentNonce, st) :=
      match alookup st.CurrentNonces fnID with
      | some n => (n, st)
      | none => (1, { st with CurrentNonces := ainsert st.CurrentNonces fnID 1 })
    let currentVoteSet := alookup st.CurrentVoteSets fnID
    if currentNonce > remoteVoteSet.Nonce then ⟨st, []⟩
    else
      match compareVoteSets f remoteVoteSet currentVoteSet currentNonce currentValidators with
      | 0 =>
        match currentVoteSet with
        | none => ⟨st, []⟩
        | some cvs =>
          match cvs.Merge currentValidators remoteVoteSet with
          | none => ⟨st, []⟩
          | some (didWeContribute, merged) =>
            let st := { st with CurrentVoteSets := ainsert st.CurrentVoteSets fnID merged }
            voteThenGossip f st sender fnID merged (st.nonceOr0 fnID)
              didWeContribute didWeContribute
      | 1 =>
        let st := { st with
          CurrentVoteSets := ainsert st.CurrentVoteSets fnID remoteVoteSet,
          CurrentNonces := ainsert st.CurrentNonces fnID remoteVoteSet.Nonce,
          CurrentProposalInfo :=
            ainsert st.CurrentProposalInfo fnID remoteVoteSet.ProposalInfo }
        voteThenGossip f st sender fnID remoteVoteSet (st.nonceOr0 fnID) false true
      | _ =>
        match currentVoteSet with
        | none => ⟨st, []⟩
        | some cvs => voteThenGossip f st sender fnID cvs currentNonce false false

/-- Modelled from the spec: `NewFnExecutionResponse` places this validator's
oracle signature at its index, all other entries empty. -/
def NewFnExecutionResponse (resp : FnIndividualExecutionResponse) (validatorIndex : Int)
    (vals : ValidatorSet) : FnExecutionResponse :=
  { Hash := resp.Hash,
    OracleSignatures :=
      (List.range vals.Size).map
        (fun i => if Int.ofNat i == validatorIndex then resp.OracleSignature else []) }

/-- Modelled from the spec: `NewVoteSet` constructs the vote slots with the
proposer's own Agree vote installed and signs the canonical encoding. -/
def NewVoteSet (id : String) (nonce : Int) (chainID : String) (validatorIndex : Int)
    (executionContext : Bytes) (payload : FnVotePayload) (vals : ValidatorSet)
    (proposalInfo : Option ProposalInfo) (now : Int) : FnVoteSet :=
  { ID := id,
    Nonce := nonce,
    ChainID := chainID,
    CreationTime := now,
    ValidatorsHash := vals.hash,
    ExecutionContext := executionContext,
    Payload := payload,
    Votes :=
      (List.range vals.Size).map
        (fun i => if Int.ofNat i == validatorIndex then VoteType.agree else VoteType.unvoted),
    ValidatorAddresses := vals.validators.map (·.address),
    ProposalInfo := proposalInfo,
    SignaturesValid := true }

structure ProposeOutcome where
  state : ReactorState
  submitCalled : Bool
  startedCommitTimer : Bool
  persisted : Bool
  gossipPeers : List String
deriving DecidableEq, Repr

/-- `propose`, transcribed from the source.  The random vote-set ID is an
explicit argument (`generateVoteSetID` drawing from the system RNG), the wall
clock is `now`, and the callback results live in `fn`. -/
def propose (f : Reactor) (st : ReactorState) (fnID : String) (fn : Fn)
    (currentProposalInfo : Option ProposalInfo) (validatorIndex : Int)
    (newVoteSetID : String) (now : Int) : ProposeOutcome :=
  match fn.prepareContext with
  | none => ⟨st, false, false, false, []⟩
  | some (shouldExecuteFn, ctx) =>
    if ctx.length > MaxContextSize then ⟨st, false, false, false, []⟩
    else if !shouldExecuteFn then ⟨st, false, false, false, []⟩
    else
      match fn.getMessageAndSignature ctx with
      | none => ⟨st, false, false, false, []⟩
      | some (message, signature) =>
        let hash := calculateMessageHash message
        if !fn.mapMessageOk then ⟨st, false, false, false, []⟩
        else if (alookup f.fnRegistry fnID).isNone then ⟨st, false, false, false, []⟩
        else
          let executionResponse :=
            NewFnExecutionResponse ⟨"", hash, signature, 0⟩ validatorIndex f.validators
          let votesetPayload : FnVotePayload := ⟨⟨fnID⟩, executionResponse⟩
          let currentNonce := (alookup st.CurrentNonces fnID).getD 1
          let voteSet := NewVoteSet newVoteSetID currentNonce f.chainID validatorIndex ctx
            votesetPayload f.validators currentProposalInfo now
          if voteSet.IsAgree f.threshold f.validators then
            ⟨st, true, false, false, []⟩
          else
            ⟨{ st with CurrentVoteSets := ainsert st.CurrentVoteSets fnID voteSet },
              false, true, true, f.connectedPeers⟩

/-- The per-FnID cleanup loop of `OnStart`: a persisted current vote set that
is expired is deleted (not archived). -/
def onStartStep (now : Int) (st : ReactorState) (fnID : String) : ReactorState :=
  match alookup st.CurrentVoteSets fnID with
  | some currentVoteState =>
    if currentVoteState.IsExpired ExpiresIn now then
      { st with CurrentVoteSets := aerase st.CurrentVoteSets fnID }
    else st
  | none => st

/-- The state transformation `OnStart` applies to the loaded state before
saving it: the cleanup loop over all registered FnIDs. -/
def OnStartCleanup (fnIDs : List String) (st : ReactorState) (now : Int) : ReactorState :=
  fnIDs.foldl (onStartStep now) st

/-- `OnStart` on the loaded state: runs the cleanup and saves the result
(the save itself always happens when the load succeeded). -/
def OnStart (f : Reactor) (st : ReactorState) (now : Int) : ReactorState × Bool :=
  (OnStartCleanup f.registryIDs st now, true)

/-- The tie-break cascade of the amended claim, stated from its words for
comparison with the source: the winner is decided by more total votes, then
more agree votes, then the more recent creation time, and on an exact tie the
local vote set is kept. -/
def specTieBreakResult (current remote : FnVoteSet) : Int :=
  if remote.NumberOfVotes > current.NumberOfVotes then 1
  else if remote.NumberOfVotes < current.NumberOfVotes then -1
  else if remote.NumberOfAgreeVotes > current.NumberOfAgreeVotes then 1
  else if remote.NumberOfAgreeVotes < current.NumberOfAgreeVotes then -1
  else if remote.CreationTime > current.CreationTime then 1
  else if remote.CreationTime < current.CreationTime then -1
  else -1

def valsOne : ValidatorSet := ⟨[⟨[1], 1⟩]⟩

def valsTwo : ValidatorSet := ⟨[⟨[1], 1⟩, ⟨[2], 1⟩]⟩

def valsThree : ValidatorSet := ⟨[⟨[1], 1⟩, ⟨[2], 1⟩, ⟨[3], 1⟩]⟩

def valsFour : ValidatorSet := ⟨[⟨[1], 1⟩, ⟨[2], 1⟩, ⟨[3], 1⟩, ⟨[4], 1⟩]⟩

/-- A stub callback: empty context, message `[]` (whose hash is `[0]`),
oracle signature `[7]`. -/
def fnStub : Fn := ⟨some (true, []), fun _ => some ([], [7]), true⟩

def emptyState : ReactorState := ⟨[], [], [], [], [], none⟩

/-- Vote set with two Agree and one Disagree vote among three validators. -/
def commitVoteSetA : FnVoteSet :=
  { ID := "id1", Nonce := 1, ChainID := "c", CreationTime := 100,
    ValidatorsHash := valsThree.hash, ExecutionContext := [],
    Payload := ⟨⟨"f"⟩, ⟨[0], [[5], [6], []]⟩⟩,
    Votes := [VoteType.agree, VoteType.agree, VoteType.disagree],
    ValidatorAddresses := [[1], [2], [3]],
    ProposalInfo := none, SignaturesValid := true }

/-- Reactor whose node is not a validator, bound to `valsThree`. -/
def commitRxA : Reactor := ⟨"c", [("f", fnStub)], [9], ["p1"], Maj23SigningThreshold, valsThree⟩

def commitStA : ReactorState := ⟨[("f", commitVoteSetA)], [], [], [("f", 1)], [], none⟩

/-- Previous Maj23 vote set whose validators hash matches `valsThree` and whose
active validators are all three addresses. -/
def rotationVoteSet : FnVoteSet :=
  { ID := "prev", Nonce := 4, ChainID := "c", CreationTime := 0,
    ValidatorsHash := valsThree.hash, ExecutionContext := [],
    Payload := ⟨⟨"f"⟩, ⟨[0], [[5], [6], [7]]⟩⟩,
    Votes := [VoteType.agree, VoteType.agree, VoteType.agree],
    ValidatorAddresses := [[1], [2], [3]],
    ProposalInfo := none, SignaturesValid := true }

def rotationState : ReactorState :=
  ⟨[], [], [("f", rotationVoteSet)], [("f", 5)], [("f", some ⟨[[1], [2], [3]], 0⟩)], none⟩

/-- Vote set among four equal-power validators: three Agree and our own
Disagree, so the Agree threshold is met but this validator has no Agree rank. -/
def strandedVoteSet : FnVoteSet :=
  { ID := "id9", Nonce := 1, ChainID := "c", CreationTime := 100,
    ValidatorsHash := valsFour.hash, ExecutionContext := [],
    Payload := ⟨⟨"f"⟩, ⟨[0], [[5], [6], [7], []]⟩⟩,
    Votes := [VoteType.agree, VoteType.agree, VoteType.agree, VoteType.disagree],
    ValidatorAddresses := [[1], [2], [3], [4]],
    ProposalInfo := none, SignaturesValid := true }

/-- Reactor whose node is the fourth validator (the Disagree voter). -/
def commitRxC : Reactor := ⟨"c", [("f", fnStub)], [4], [], Maj23SigningThreshold, valsFour⟩

def commitStC : ReactorState := ⟨[("f", strandedVoteSet)], [], [], [("f", 1)], [], none⟩

/-- Vote set among three validators with a single Agree vote: valid but not
converged at Maj23. -/
def sparseVoteSet : FnVoteSet :=
  { ID := "id2", Nonce := 1, ChainID := "c", CreationTime := 100,
    ValidatorsHash := valsThree.hash, ExecutionContext := [],
    Payload := ⟨⟨"f"⟩, ⟨[0], [[5], [], []]⟩⟩,
    Votes := [VoteType.agree, VoteType.unvoted, VoteType.unvoted],
    ValidatorAddresses := [[1], [2], [3]],
    ProposalInfo := none, SignaturesValid := true }

def commitStB : ReactorState := ⟨[("f", sparseVoteSet)], [], [], [("f", 1)], [], none⟩

/-- Vote set among two validators, both Agree; our node is the first one. -/
def submitVoteSet : FnVoteSet :=
  { ID := "id4", Nonce := 4, ChainID := "c", CreationTime := 100,
    ValidatorsHash := valsTwo.hash, ExecutionContext := [],
    Payload := ⟨⟨"f"⟩, ⟨[0], [[5], [6]]⟩⟩,
    Votes := [VoteType.agree, VoteType.agree],
    ValidatorAddresses := [[1], [2]],
    ProposalInfo := none, SignaturesValid := true }

def commitRxD : Reactor := ⟨"c", [("f", fnStub)], [1], [], Maj23SigningThreshold, valsTwo⟩

def commitStD : ReactorState := ⟨[("f", submitVoteSet)], [], [], [("f", 4)], [], none⟩

def compareRx : Reactor := ⟨"c", [("f", fnStub)], [9], [], Maj23SigningThreshold, valsFour⟩

/-- Local vote set with three Disagree votes out of four validators:
disagree-threshold-met, not agree-threshold-met. -/
def disagreeCur : FnVoteSet :=
  { ID := "cur", Nonce := 1, ChainID := "c", CreationTime := 100,
    ValidatorsHash := valsFour.hash, ExecutionContext := [],
    Payload := ⟨⟨"f"⟩, ⟨[0], [[], [], [], []]⟩⟩,
    Votes := [VoteType.disagree, VoteType.disagree, VoteType.disagree, VoteType.unvoted],
    ValidatorAddresses := [[1], [2], [3], [4]],
    ProposalInfo := none, SignaturesValid := true }

/-- Remote vote set with four Disagree votes: strictly more total votes. -/
def disagreeRem : FnVoteSet :=
  { disagreeCur with
      ID := "rem",
      Votes := [VoteType.disagree, VoteType.disagree, VoteType.disagree,
        VoteType.disagree] }

/-- Local vote set with three Agree votes, created at time 100. -/
def agreeOldCur : FnVoteSet :=
  { ID := "cur", Nonce := 1, ChainID := "c", CreationTime := 100,
    ValidatorsHash := valsFour.hash, ExecutionContext := [],
    Payload := ⟨⟨"f"⟩, ⟨[0], [[5], [6], [7], []]⟩⟩,
    Votes := [VoteType.agree, VoteType.agree, VoteType.agree, VoteType.unvoted],
    ValidatorAddresses := [[1], [2], [3], [4]],
    ProposalInfo := none, SignaturesValid := true }

/-- Remote vote set identical in counts but created later (time 200). -/
def agreeNewRem : FnVoteSet := { agreeOldCur with ID := "rem", CreationTime := 200 }

def proposeRx : Reactor := ⟨"c", [("f", fnStub)], [1], ["p"], Maj23SigningThreshold, valsOne⟩

/-- Expired persisted vote set (created at 0, checked at 100 > 51). -/
def expiredVoteSet : FnVoteSet :=
  { ID := "old", Nonce := 1, ChainID := "c", CreationTime := 0,
    ValidatorsHash := valsThree.hash, ExecutionContext := [],
    Payload := ⟨⟨"f"⟩, ⟨[0], [[5], [], []]⟩⟩,
    Votes := [VoteType.agree, VoteType.unvoted, VoteType.unvoted],
    ValidatorAddresses := [[1], [2], [3]],
    ProposalInfo := none, SignaturesValid := true }

/-- Fresh persisted vote set (created at 90, not expired at 100). -/
def freshVoteSet : FnVoteSet :=
  { expiredVoteSet with
      ID := "new",
      CreationTime := 90,
      Payload := ⟨⟨"g"⟩, ⟨[0], [[5], [], []]⟩⟩ }

def onStartRx : Reactor :=
  ⟨"c", [("f", fnStub), ("g", fnStub)], [9], [], Maj23SigningThreshold, valsThree⟩

def onStartSt : ReactorState :=
  ⟨[("f", expiredVoteSet), ("g", freshVoteSet)], [("t", expiredVoteSet)], [], [("f", 3)], [],
    none⟩

/-- Expired, converged remote Maj23 vote set at nonce 17 (two validators). -/
def maj23Remote : FnVoteSet :=
  { ID := "m", Nonce := 17, ChainID := "c", CreationTime := 0,
    ValidatorsHash := valsTwo.hash, ExecutionContext := [],
    Payload := ⟨⟨"f"⟩, ⟨[0], [[5], [6]]⟩⟩,
    Votes := [VoteType.agree, VoteType.agree],
    ValidatorAddresses := [[1], [2]],
    ProposalInfo := some ⟨[[1], [2]], 1⟩, SignaturesValid := true }

def maj23Rx : Reactor := ⟨"c", [("f", fnStub)], [9], ["q1", "q2"], Maj23SigningThreshold, valsTwo⟩

def maj23StBehind : ReactorState := ⟨[], [], [], [("f", 18)], [], none⟩

def maj23StAhead : ReactorState := ⟨[], [], [], [("f", 30)], [], none⟩

/-- Local vote set of a non-validator node, one Agree vote of two slots. -/
def gossipCur : FnVoteSet :=
  { ID := "id", Nonce := 1, ChainID := "c", CreationTime := 100,
    ValidatorsHash := valsTwo.hash, ExecutionContext := [],
    Payload := ⟨⟨"f"⟩, ⟨[0], [[5], []]⟩⟩,
    Votes := [VoteType.agree, VoteType.unvoted],
    ValidatorAddresses := [[1], [2]],
    ProposalInfo := none, SignaturesValid := true }

/-- The sender's vote set: same ID, one more vote, so the merge changes ours. -/
def gossipRem : FnVoteSet :=
  { gossipCur with
      Votes := [VoteType.agree, VoteType.agree],
      Payload := ⟨⟨"f"⟩, ⟨[0], [[5], [6]]⟩⟩ }

/-- Reactor of a non-validator node with two connected peers. -/
def gossipRx : Reactor :=
  ⟨"c", [("f", fnStub)], [99], ["peerA", "sender"], Maj23SigningThreshold, valsTwo⟩

def gossipSt : ReactorState := ⟨[("f", gossipCur)], [], [], [("f", 1)], [], none⟩

/-- State with no current vote set, used for the replacement scenario. -/
def replaceSt : ReactorState := ⟨[], [], [], [("f", 1)], [], none⟩

/-- Local vote set of the third validator's node, two Agree votes of three. -/
def voteAddCur : FnVoteSet :=
  { ID := "id", Nonce := 1, ChainID := "c", CreationTime := 100,
    ValidatorsHash := valsThree.hash, ExecutionContext := [],
    Payload := ⟨⟨"f"⟩, ⟨[0], [[5], [6], []]⟩⟩,
    Votes := [VoteType.agree, VoteType.agree, VoteType.unvoted],
    ValidatorAddresses := [[1], [2], [3]],
    ProposalInfo := none, SignaturesValid := true }

/-- Less trustworthy remote vote set (different ID, only one vote). -/
def voteAddRem : FnVoteSet :=
  { voteAddCur with
      ID := "r2",
      Votes := [VoteType.agree, VoteType.unvoted, VoteType.unvoted],
      Payload := ⟨⟨"f"⟩, ⟨[0], [[5], [], []]⟩⟩ }

/-- Reactor of the third validator with two connected peers. -/
def voteAddRx : Reactor :=
  ⟨"c", [("f", fnStub)], [3], ["peerA", "sender"], Maj23SigningThreshold, valsThree⟩

def voteAddSt : ReactorState := ⟨[("f", voteAddCur)], [], [], [("f", 1)], [], none⟩

/-! ## Theorems -/

@[simp] theorem alookup_nil {α : Type} (k : String) : alookup ([] : List (String × α)) k = none := rfl

theorem alookup_cons {α : Type} (p : String × α) (m : List (String × α)) (k : String) :
    alookup (p :: m) k = if p.1 == k then some p.2 else alookup m k := by
  by_cases h : p.1 == k <;> simp [alookup, List.find?, h]

@[simp] theorem alookup_aerase_self {α : Type} (m : List (String × α)) (k : String) :
    alookup (aerase m k) k = none := by
  induction m with
  | nil => rfl
  | cons p m ih =>
      by_cases h : p.1 = k
      · simpa [aerase, h] using ih
      · simp [aerase, h, alookup_cons, ih]

theorem alookup_aerase_ne {α : Type} (m : List (String × α)) (k k' : String) (h : k' ≠ k) :
    alookup (aerase m k) k' = alookup m k' := by
  induction m with
  | nil => rfl
  | cons p m ih =>
      by_cases hp : p.1 = k
      · have hne : ¬ (p.1 = k') := by
          intro hc; exact h (hc ▸ hp ▸ rfl)
        simp [aerase, hp, alookup_cons, hne, ih, h, Ne.symm h]
      · by_cases hk : p.1 = k'
        · simp [aerase, hp, alookup_cons, hk, h, Ne.symm h]
        · simp [aerase, hp, alookup_cons, hk, ih, h, Ne.symm h]

@[simp] theorem alookup_ainsert_self {α : Type} (m : List (String × α)) (k : String) (v : α) :
    alookup (ainsert m k v) k = some v := by
  simp [ainsert, alookup_cons]

theorem alookup_ainsert_ne {α : Type} (m : List (String × α)) (k k' : String) (v : α) (h : k' ≠ k) :
    alookup (ainsert m k v) k' = alookup m k' := by
  have hne : ¬ (k = k') := fun hc => h hc.symm
  simp [ainsert, alookup_cons, hne, alookup_aerase_ne m k k' h]

namespace FnVoteSet

theorem agreeRank_zero (votes : List VoteType) : agreeRank votes 0 = 0 := rfl

theorem agreeRank_succ (votes : List VoteType) (i : Nat) (h : i < votes.length) :
    agreeRank votes (i + 1) =
      agreeRank votes i + (if votes.getD i VoteType.unvoted == VoteType.agree then 1 else 0) := by
  unfold agreeRank
  have ht : votes.take (i + 1) = votes.take i ++ [votes.getD i VoteType.unvoted] := by
    rw [List.take_succ, List.getElem?_eq_getElem h, List.getD_eq_getElem?_getD,
      List.getElem?_eq_getElem h]
    rfl
  rw [ht, List.filter_append, List.length_append]
  cases votes.getD i VoteType.unvoted <;> rfl

theorem agreeRank_mono (votes : List VoteType) {i j : Nat} (h : i ≤ j) :
    agreeRank votes i ≤ agreeRank votes j := by
  unfold agreeRank
  exact List.IsPrefix.length_le
    (List.IsPrefix.filter _ (List.take_isPrefix_take.mpr (Or.inl h)))

theorem agreeRank_strict (votes : List VoteType) {i j : Nat} (hij : i < j)
    (hi : i < votes.length) (hv : votes.getD i VoteType.unvoted = VoteType.agree) :
    agreeRank votes i < agreeRank votes j := by
  have h1 : agreeRank votes (i + 1) = agreeRank votes i + 1 := by
    rw [agreeRank_succ votes i hi, hv]; rfl
  have h2 : agreeRank votes (i + 1) ≤ agreeRank votes j := agreeRank_mono votes hij
  omega

theorem agreeRank_le_succ_self (votes : List VoteType) (i : Nat) (h : i < votes.length) :
    agreeRank votes (i + 1) ≤ agreeRank votes i + 1 := by
  rw [agreeRank_succ votes i h]
  split <;> omega

theorem agreeRank_surj (votes : List VoteType) :
    ∀ m, m ≤ votes.length → ∀ k, k < agreeRank votes m →
      ∃ i, i < m ∧ votes.getD i VoteType.unvoted = VoteType.agree ∧ agreeRank votes i = k := by
  intro m
  induction m with
  | zero =>
      intro _ k hk
      rw [agreeRank_zero] at hk
      omega
  | succ m ih =>
      intro hm k hk
      have hmlen : m < votes.length := by omega
      by_cases hlt : k < agreeRank votes m
      · obtain ⟨i, h1, h2, h3⟩ := ih (by omega) k hlt
        exact ⟨i, by omega, h2, h3⟩
      · have hstep := agreeRank_succ votes m hmlen
        by_cases hv : votes.getD m VoteType.unvoted = VoteType.agree
        · rw [hv] at hstep
          simp at hstep
          exact ⟨m, by omega, hv, by omega⟩
        · rw [hstep] at hk
          rcases hgd : votes.getD m VoteType.unvoted with _ | _ | _
          · rw [hgd] at hk; simp at hk; omega
          · exact absurd hgd hv
          · rw [hgd] at hk; simp at hk; omega

theorem numberOfAgreeVotes_eq_agreeRank (vs : FnVoteSet) :
    vs.NumberOfAgreeVotes = agreeRank vs.Votes vs.Votes.length := by
  unfold NumberOfAgreeVotes agreeRank
  rw [List.take_length]

theorem exists_unique_agree_of_rank (votes : List VoteType) (k : Nat)
    (hk : k < agreeRank votes votes.length) :
    ∃! i : Nat, i < votes.length ∧ votes.getD i VoteType.unvoted = VoteType.agree ∧
      agreeRank votes i = k := by
  obtain ⟨i, h1, h2, h3⟩ := agreeRank_surj votes votes.length (le_refl _) k hk
  refine ⟨i, ⟨h1, h2, h3⟩, ?_⟩
  intro j ⟨hj1, hj2, hj3⟩
  rcases Nat.lt_trichotomy j i with h | h | h
  · have := agreeRank_strict votes h hj1 hj2
    omega
  · exact h
  · have := agreeRank_strict votes h h1 h2
    omega

end FnVoteSet

theorem handleCommit_advance_state (f : Reactor) (st : ReactorState) (fnID : String) (now : Int)
    (cvs : FnVoteSet)
    (hreg : (alookup f.fnRegistry fnID).isSome = true)
    (hcv : alookup st.CurrentVoteSets fnID = some cvs)
    (hvalid : cvs.IsValid f.chainID MaxContextSize true ExpiresIn f.validators
      f.registryIDs now = true)
    (hconv : cvs.HasConverged f.threshold f.validators = true)
    (hne : ¬((f.amIValidator).1 = true ∧ cvs.IsAgree f.threshold f.validators = true ∧
      cvs.GetAgreeVoteIndexForValidatorIndex (f.amIValidator).2 = none)) :
    (handleCommit f st fnID now).state = commitAdvanceState st fnID cvs f.validators := by
  obtain ⟨fn, hfn⟩ := Option.isSome_iff_exists.mp hreg
  unfold handleCommit
  rw [hfn, hcv]
  simp only [hvalid, hconv, Bool.not_true, Bool.false_eq_true, if_false]
  by_cases hA : (f.amIValidator).1 && cvs.IsAgree f.threshold f.validators
  · rw [Bool.and_eq_true] at hA
    rcases hA with ⟨hA1, hA2⟩
    rcases hidx : cvs.GetAgreeVoteIndexForValidatorIndex (f.amIValidator).2 with _ | r
    · exact absurd ⟨hA1, hA2, hidx⟩ hne
    · simp [hA1, hA2, hidx]
  · simp only [Bool.and_eq_true, not_and_or, Bool.not_eq_true] at hA
    rcases hA with h | h <;> simp [h]

theorem handleCommit_submitted_iff (f : Reactor) (st : ReactorState) (fnID : String) (now : Int)
    (cvs : FnVoteSet)
    (hreg : (alookup f.fnRegistry fnID).isSome = true)
    (hcv : alookup st.CurrentVoteSets fnID = some cvs)
    (hvalid : cvs.IsValid f.chainID MaxContextSize true ExpiresIn f.validators
      f.registryIDs now = true)
    (hconv : cvs.HasConverged f.threshold f.validators = true) :
    ((handleCommit f st fnID now).submitted = true ↔
      ((f.amIValidator).1 = true ∧ cvs.IsAgree f.threshold f.validators = true ∧
        ∃ r : Nat, cvs.GetAgreeVoteIndexForValidatorIndex (f.amIValidator).2 = some r ∧
          goMod (st.nonceOr0 fnID) (cvs.NumberOfAgreeVotes : Int) = (r : Int))) := by
  obtain ⟨fn, hfn⟩ := Option.isSome_iff_exists.mp hreg
  have hout : (handleCommit f st fnID now).submitted =
      ((f.amIValidator).1 && cvs.IsAgree f.threshold f.validators &&
        match cvs.GetAgreeVoteIndexForValidatorIndex (f.amIValidator).2 with
        | none => false
        | some r =>
          goMod (st.nonceOr0 fnID) (cvs.NumberOfAgreeVotes : Int) == (r : Int)) := by
    unfold handleCommit
    rw [hfn, hcv]
    simp only [hvalid, hconv, Bool.not_true, Bool.false_eq_true, if_false]
    by_cases hA : (f.amIValidator).1 && cvs.IsAgree f.threshold f.validators
    · rcases hidx : cvs.GetAgreeVoteIndexForValidatorIndex (f.amIValidator).2 with _ | r <;>
        simp [hA, hidx]
    · simp [hA]
  rw [hout]
  rcases hidx : cvs.GetAgreeVoteIndexForValidatorIndex (f.amIValidator).2 with _ | r
  · simp [hidx]
  · simp [hidx, Bool.and_eq_true, and_assoc]

theorem handleCommit_timedout_state (f : Reactor) (st : ReactorState) (fnID : String) (now : Int)
    (cvs : FnVoteSet)
    (hreg : (alookup f.fnRegistry fnID).isSome = true)
    (hcv : alookup st.CurrentVoteSets fnID = some cvs)
    (hvalid : cvs.IsValid f.chainID MaxContextSize true ExpiresIn f.validators
      f.registryIDs now = true)
    (hnconv : cvs.HasConverged f.threshold f.validators = false) :
    (handleCommit f st fnID now).state = commitTimedOutState st fnID cvs ∧
      (handleCommit f st fnID now).submitted = false := by
  obtain ⟨fn, hfn⟩ := Option.isSome_iff_exists.mp hreg
  unfold handleCommit
  rw [hfn, hcv]
  simp only [hvalid, hnconv, Bool.not_true, Bool.not_false, Bool.false_eq_true, if_false, if_true]
  rcases h : alookup (commitTimedOutState st fnID cvs).PreviousMaj23VoteSets fnID with _ | v <;>
    simp [h]

theorem handleCommit_nonce_mono (f : Reactor) (st : ReactorState) (fnID : String) (now : Int)
    (fnID2 : String) :
    st.nonceOr0 fnID2 ≤ ((handleCommit f st fnID now).state).nonceOr0 fnID2 := by
  have hts : ∀ cvs, (commitTimedOutState st fnID cvs).nonceOr0 fnID2 = st.nonceOr0 fnID2 := by
    intro cvs; rfl
  have hadv : ∀ cvs vals, st.nonceOr0 fnID2 ≤
      (commitAdvanceState st fnID cvs vals).nonceOr0 fnID2 := by
    intro cvs vals
    unfold commitAdvanceState ReactorState.nonceOr0
    by_cases h : fnID2 = fnID
    · subst h
      rw [alookup_ainsert_self]
      simp [ReactorState.nonceOr0]
    · rw [alookup_ainsert_ne _ _ _ _ h]
  unfold handleCommit
  rcases alookup f.fnRegistry fnID with _ | fn
  · simp
  · rcases alookup st.CurrentVoteSets fnID with _ | cvs
    · simp
    · by_cases h1 : cvs.IsValid f.chainID MaxContextSize true ExpiresIn f.validators
        f.registryIDs now
      · by_cases h2 : cvs.HasConverged f.threshold f.validators
        · by_cases h3 : (f.amIValidator).1 && cvs.IsAgree f.threshold f.validators
          · rcases h4 : cvs.GetAgreeVoteIndexForValidatorIndex (f.amIValidator).2 with _ | r
            · simp [h1, h2, h3, h4]
            · simp only [h1, h2, h3, h4, Bool.not_true, Bool.false_eq_true, if_false, if_true]
              exact hadv cvs f.validators
          · simp only [h1, h2, h3, Bool.not_true, Bool.false_eq_true, if_false, if_true]
            exact hadv cvs f.validators
        · simp only [h1, h2, Bool.not_true, Bool.not_false, Bool.false_eq_true, if_false, if_true]
          rcases h5 : alookup (commitTimedOutState st fnID cvs).PreviousMaj23VoteSets fnID
            with _ | v <;> simp [h5, hts]
      · simp [h1]

theorem commitAdvanceState_lookups (st : ReactorState) (fnID : String) (cvs : FnVoteSet)
    (vals : ValidatorSet) :
    alookup (commitAdvanceState st fnID cvs vals).CurrentNonces fnID =
        some (st.nonceOr0 fnID + 1) ∧
      alookup (commitAdvanceState st fnID cvs vals).PreviousMaj23VoteSets fnID = some cvs ∧
      alookup (commitAdvanceState st fnID cvs vals).CurrentVoteSets fnID = none ∧
      (commitAdvanceState st fnID cvs vals).PreviousValidatorSet = some vals ∧
      (commitAdvanceState st fnID cvs vals).PreviousTimedOutVoteSets =
        st.PreviousTimedOutVoteSets := by
  refine ⟨?_, ?_, ?_, rfl, rfl⟩ <;> simp [commitAdvanceState]

/-- With three validators of equal positive power, a vote set with two Agree
votes and one Disagree vote has converged (3/3 of the power voted) but the
Agree power is exactly two thirds, which is not strictly greater. -/
theorem two_agree_one_disagree_three_equal (p : Int) (hp : 0 < p)
    (a1 a2 a3 : Bytes) (vs : FnVoteSet)
    (hlen : vs.Votes.length = 3)
    (ha : vs.Votes.count VoteType.agree = 2)
    (hd : vs.Votes.count VoteType.disagree = 1) :
    vs.HasConverged Maj23SigningThreshold ⟨[⟨a1, p⟩, ⟨a2, p⟩, ⟨a3, p⟩]⟩ = true ∧
      vs.IsAgree Maj23SigningThreshold ⟨[⟨a1, p⟩, ⟨a2, p⟩, ⟨a3, p⟩]⟩ = false := by
  obtain ⟨x, y, z, hxyz⟩ := List.length_eq_three.mp hlen
  rw [hxyz] at ha hd
  unfold FnVoteSet.HasConverged FnVoteSet.IsAgree thresholdMet votePower
    ValidatorSet.TotalVotingPower
  rw [hxyz]
  cases x <;> cases y <;> cases z <;> simp_all <;> exact ⟨by omega, by omega⟩

theorem onStartStep_fields (now : Int) (st : ReactorState) (fnID : String) :
    (onStartStep now st fnID).PreviousTimedOutVoteSets = st.PreviousTimedOutVoteSets ∧
      (onStartStep now st fnID).PreviousMaj23VoteSets = st.PreviousMaj23VoteSets ∧
      (onStartStep now st fnID).CurrentNonces = st.CurrentNonces ∧
      (onStartStep now st fnID).CurrentProposalInfo = st.CurrentProposalInfo ∧
      (onStartStep now st fnID).PreviousValidatorSet = st.PreviousValidatorSet := by
  unfold onStartStep
  rcases alookup st.CurrentVoteSets fnID with _ | cvs
  · exact ⟨rfl, rfl, rfl, rfl, rfl⟩
  · by_cases h : cvs.IsExpired ExpiresIn now <;> simp [h]

theorem onStartStep_lookup (now : Int) (st : ReactorState) (id k : String) :
    alookup (onStartStep now st id).CurrentVoteSets k = none ∨
      alookup (onStartStep now st id).CurrentVoteSets k = alookup st.CurrentVoteSets k := by
  unfold onStartStep
  rcases hl : alookup st.CurrentVoteSets id with _ | cvs
  · right; rfl
  · by_cases he : cvs.IsExpired ExpiresIn now
    · simp only [he, if_true]
      by_cases hk : k = id
      · left; subst hk; exact alookup_aerase_self _ _
      · right; exact alookup_aerase_ne _ _ _ hk
    · right; simp [he]

theorem onStartCleanup_fields (ids : List String) (st : ReactorState) (now : Int) :
    (OnStartCleanup ids st now).PreviousTimedOutVoteSets = st.PreviousTimedOutVoteSets ∧
      (OnStartCleanup ids st now).PreviousMaj23VoteSets = st.PreviousMaj23VoteSets ∧
      (OnStartCleanup ids st now).CurrentNonces = st.CurrentNonces ∧
      (OnStartCleanup ids st now).CurrentProposalInfo = st.CurrentProposalInfo ∧
      (OnStartCleanup ids st now).PreviousValidatorSet = st.PreviousValidatorSet := by
  induction ids generalizing st with
  | nil => exact ⟨rfl, rfl, rfl, rfl, rfl⟩
  | cons id rest ih =>
      have hstep := onStartStep_fields now st id
      have hrest := ih (onStartStep now st id)
      exact ⟨hrest.1.trans hstep.1, hrest.2.1.trans hstep.2.1, hrest.2.2.1.trans hstep.2.2.1,
        hrest.2.2.2.1.trans hstep.2.2.2.1, hrest.2.2.2.2.trans hstep.2.2.2.2⟩

theorem onStartCleanup_none (ids : List String) (st : ReactorState) (now : Int) (fnID : String)
    (h : alookup st.CurrentVoteSets fnID = none) :
    alookup (OnStartCleanup ids st now).CurrentVoteSets fnID = none := by
  induction ids generalizing st with
  | nil => exact h
  | cons id rest ih =>
      apply ih
      rcases onStartStep_lookup now st id fnID with hs | hs
      · exact hs
      · exact hs.trans h

theorem onStartCleanup_expired_deleted (ids : List String) (st : ReactorState) (now : Int)
    (fnID : String) (cvs : FnVoteSet)
    (hmem : fnID ∈ ids)
    (h : alookup st.CurrentVoteSets fnID = some cvs)
    (hexp : cvs.IsExpired ExpiresIn now = true) :
    alookup (OnStartCleanup ids st now).CurrentVoteSets fnID = none := by
  induction ids generalizing st with
  | nil => cases hmem
  | cons id rest ih =>
      rcases List.mem_cons.mp hmem with heq | hmem2
      · subst heq
        have hstep : alookup (onStartStep now st fnID).CurrentVoteSets fnID = none := by
          unfold onStartStep
          rw [h]
          simp only [hexp, if_true]
          exact alookup_aerase_self _ _
        exact onStartCleanup_none rest _ now fnID hstep
      · rcases onStartStep_lookup now st id fnID with hs | hs
        · exact onStartCleanup_none rest _ now fnID hs
        · exact ih _ hmem2 (hs.trans h)

theorem onStartCleanup_not_expired (ids : List String) (st : ReactorState) (now : Int)
    (fnID : String) (cvs : FnVoteSet)
    (h : alookup st.CurrentVoteSets fnID = some cvs)
    (hne : cvs.IsExpired ExpiresIn now = false) :
    alookup (OnStartCleanup ids st now).CurrentVoteSets fnID = some cvs := by
  induction ids generalizing st with
  | nil => exact h
  | cons id rest ih =>
      apply ih
      unfold onStartStep
      rcases hl : alookup st.CurrentVoteSets id with _ | v
      · exact h
      · by_cases he : v.IsExpired ExpiresIn now
        · simp only [he, if_true]
          by_cases hk : fnID = id
          · subst hk
            rw [h] at hl
            injection hl with hv
            rw [← hv] at he
            rw [hne] at he
            simp at he
          · rw [alookup_aerase_ne _ _ _ hk]
            exact h
        · simpa [he] using h

/-- C5 (amended): in compareVoteSets, for every pair of vote sets with
different IDs where both are threshold-met: when both are agree-threshold-met
the winner is decided by more total votes, then more agree votes, then the
more recent CreationTime, and on an exact tie the local vote set is kept
(result -1); when neither is agree-threshold-met the local vote set is kept
(result -1) regardless of the vote counts. -/
theorem C5_amended_compare_tiebreak (f : Reactor) (remote current : FnVoteSet)
    (currentNonce : Int) (vals : ValidatorSet)
    (hid : (current.ID == remote.ID) = false)
    (hcM : (current.IsAgree f.threshold vals || current.IsDisagree f.threshold vals) = true)
    (hrM : (remote.IsAgree f.threshold vals || remote.IsDisagree f.threshold vals) = true) :
    (current.IsAgree f.threshold vals = true → remote.IsAgree f.threshold vals = true →
      compareVoteSets f remote (some current) currentNonce vals =
        specTieBreakResult current remote) ∧
    (current.IsAgree f.threshold vals = false → remote.IsAgree f.threshold vals = false →
      compareVoteSets f remote (some current) currentNonce vals = -1) := by
  constructor
  · intro hca hra
    unfold compareVoteSets specTieBreakResult
    simp only [hid, hca, hra, hcM, hrM, Bool.true_or, Bool.or_self, Bool.not_true,
      Bool.and_false, Bool.false_and, Bool.and_self, Bool.false_eq_true, if_false, if_true]
    split_ifs <;> omega
  · intro hca hra
    have hcd : current.IsDisagree f.threshold vals = true := by
      rw [hca] at hcM; simpa using hcM
    have hrd : remote.IsDisagree f.threshold vals = true := by
      rw [hra] at hrM; simpa using hrM
    simp [compareVoteSets, hid, hca, hra, hcd, hrd]

/-- C1 counterexample: with threshold Maj23, three equal-power validators and a
valid current vote set carrying two Agree and one Disagree vote, the commit
routine makes no submit call, but it does not archive the vote set into
PreviousTimedOutVoteSets and it advances CurrentNonces["f"] from 1 to 2,
against the claim. -/
theorem C1_counterexample :
    commitVoteSetA.IsValid "c" MaxContextSize true ExpiresIn valsThree
        (Reactor.registryIDs commitRxA) 110 = true ∧
      commitVoteSetA.HasConverged Maj23SigningThreshold valsThree = true ∧
      commitVoteSetA.IsAgree Maj23SigningThreshold valsThree = false ∧
      (handleCommit commitRxA commitStA "f" 110).submitted = false ∧
      alookup (handleCommit commitRxA commitStA "f" 110).state.PreviousTimedOutVoteSets "f" =
        none ∧
      alookup (handleCommit commitRxA commitStA "f" 110).state.CurrentNonces "f" = some 2 := by
  decide

/-- C1 (amended): with signing threshold Maj23 and three equal-power
validators, if at commit-timer fire the valid current vote set carries two
Agree votes and one Disagree vote, then the commit routine makes no call to
Fn.SubmitMultiSignedMessage, but — the vote set having converged — it stores
the vote set into PreviousMaj23VoteSets[FnID], removes it from
CurrentVoteSets, increments CurrentNonces[FnID] by one, and leaves
PreviousTimedOutVoteSets unchanged. -/
theorem C1_amended_commit_two_agree_one_disagree
    (f : Reactor) (st : ReactorState) (fnID : String) (now : Int) (cvs : FnVoteSet)
    (p : Int) (a1 a2 a3 : Bytes) (hp : 0 < p)
    (hvals : f.validators = ⟨[⟨a1, p⟩, ⟨a2, p⟩, ⟨a3, p⟩]⟩)
    (hthr : f.threshold = Maj23SigningThreshold)
    (hreg : (alookup f.fnRegistry fnID).isSome = true)
    (hcv : alookup st.CurrentVoteSets fnID = some cvs)
    (hvalid : cvs.IsValid f.chainID MaxContextSize true ExpiresIn f.validators
      f.registryIDs now = true)
    (hlen : cvs.Votes.length = 3)
    (ha : cvs.Votes.count VoteType.agree = 2)
    (hd : cvs.Votes.count VoteType.disagree = 1) :
    (handleCommit f st fnID now).submitted = false ∧
      alookup (handleCommit f st fnID now).state.PreviousMaj23VoteSets fnID = some cvs ∧
      alookup (handleCommit f st fnID now).state.CurrentVoteSets fnID = none ∧
      alookup (handleCommit f st fnID now).state.CurrentNonces fnID =
        some (st.nonceOr0 fnID + 1) ∧
      (handleCommit f st fnID now).state.PreviousTimedOutVoteSets =
        st.PreviousTimedOutVoteSets := by
  obtain ⟨hconv0, hnagree0⟩ := two_agree_one_disagree_three_equal p hp a1 a2 a3 cvs hlen ha hd
  have hconv : cvs.HasConverged f.threshold f.validators = true := by
    rw [hthr, hvals]; exact hconv0
  have hnagree : cvs.IsAgree f.threshold f.validators = false := by
    rw [hthr, hvals]; exact hnagree0
  have hstate := handleCommit_advance_state f st fnID now cvs hreg hcv hvalid hconv
    (by intro ⟨_, h2, _⟩; rw [hnagree] at h2; cases h2)
  have hsub := handleCommit_submitted_iff f st fnID now cvs hreg hcv hvalid hconv
  have hlook := commitAdvanceState_lookups st fnID cvs f.validators
  refine ⟨?_, ?_, ?_, ?_, ?_⟩
  · rcases hb : (handleCommit f st fnID now).submitted with _ | _
    · rfl
    · obtain ⟨_, h2, _⟩ := hsub.mp hb
      rw [hnagree] at h2
      cases h2
  · rw [hstate]; exact hlook.2.1
  · rw [hstate]; exact hlook.2.2.1
  · rw [hstate]; exact hlook.1
  · rw [hstate]; exact hlook.2.2.2.2

/-- C1 witness: the amended claim evaluated at the concrete
two-Agree-one-Disagree fixture. -/
theorem C1_witness :
    (handleCommit commitRxA commitStA "f" 110).submitted = false ∧
      alookup (handleCommit commitRxA commitStA "f" 110).state.PreviousMaj23VoteSets "f" =
        some commitVoteSetA ∧
      alookup (handleCommit commitRxA commitStA "f" 110).state.CurrentVoteSets "f" = none ∧
      alookup (handleCommit commitRxA commitStA "f" 110).state.CurrentNonces "f" =
        some (commitStA.nonceOr0 "f" + 1) ∧
      (handleCommit commitRxA commitStA "f" 110).state.PreviousTimedOutVoteSets =
        commitStA.PreviousTimedOutVoteSets :=
  C1_amended_commit_two_agree_one_disagree commitRxA commitStA "f" 110 commitVoteSetA
    1 [1] [2] [3] (by decide) rfl rfl (by decide) (by decide) (by decide)
    (by decide) (by decide) (by decide)

/-- C2: the source's `ReactorConfig.IsValid` has inverted polarity — it
rejects the two documented thresholds (so `NewFnConsensusReactor` fails on
them with `ErrInvalidReactorConfiguration`) and accepts any other string,
contradicting the claim and the spec. -/
theorem C2_config_validation_inverted :
    ReactorConfig.IsValid (some ⟨none, Maj23SigningThreshold⟩) = false ∧
      ReactorConfig.IsValid (some ⟨none, AllSigningThreshold⟩) = false ∧
      ReactorConfig.IsValid (some ⟨none, "Bogus"⟩) = true ∧
      NewFnConsensusReactor (some ⟨none, Maj23SigningThreshold⟩) =
        Except.error ReactorError.invalidReactorConfiguration ∧
      NewFnConsensusReactor (some ⟨none, AllSigningThreshold⟩) =
        Except.error ReactorError.invalidReactorConfiguration ∧
      NewFnConsensusReactor (some ⟨none, "Bogus"⟩) = Except.ok () :=
  ⟨by decide, by decide, by decide, rfl, rfl, rfl⟩

/-- C3: at a state where the previous Maj23 vote set exists, its validators
hash matches the current set and its active-validator list equals the stored
proposal info, `getNextProposalInfo` returns turn 0 with an empty
active-validator list (the source never populates `LastActiveValidators` of
the freshly allocated record before taking its length), not the claimed
same-list, turn `(0 + 1) mod 3 = 1` rotation. -/
theorem C3_next_proposal_rotation_bug :
    rotationVoteSet.ValidatorsHash = valsThree.hash ∧
      rotationVoteSet.ActiveValidators = [[1], [2], [3]] ∧
      rotationState.getProposalInfo "f" = some ⟨[[1], [2], [3]], 0⟩ ∧
      getNextProposalInfo "f" rotationState valsThree =
        some { LastActiveValidators := [], CurrentTurn := 0 } ∧
      getNextProposalInfo "f" rotationState valsThree ≠
        some { LastActiveValidators := [[1], [2], [3]], CurrentTurn := 1 } := by
  decide

theorem commitTimedOutState_lookups (st : ReactorState) (fnID : String) (cvs : FnVoteSet) :
    (commitTimedOutState st fnID cvs).CurrentNonces = st.CurrentNonces ∧
      alookup (commitTimedOutState st fnID cvs).PreviousTimedOutVoteSets fnID = some cvs ∧
      alookup (commitTimedOutState st fnID cvs).CurrentVoteSets fnID = none := by
  refine ⟨rfl, ?_, ?_⟩ <;> simp [commitTimedOutState]

/-- C9 counterexample: on a valid converged vote set whose Agree threshold is
met while this validator's own slot is Disagree,
`GetAgreeVoteIndexForValidatorIndex` errors and the commit routine returns
early, leaving the whole state unchanged — the nonce is not incremented, the
vote set neither stored into PreviousMaj23VoteSets nor cleared, against the
claim. -/
theorem C9_counterexample :
    strandedVoteSet.IsValid "c" MaxContextSize true ExpiresIn valsFour
        (Reactor.registryIDs commitRxC) 110 = true ∧
      strandedVoteSet.HasConverged Maj23SigningThreshold valsFour = true ∧
      strandedVoteSet.IsAgree Maj23SigningThreshold valsFour = true ∧
      (Reactor.amIValidator commitRxC).1 = true ∧
      strandedVoteSet.GetAgreeVoteIndexForValidatorIndex
        (Reactor.amIValidator commitRxC).2 = none ∧
      (handleCommit commitRxC commitStC "f" 110).state = commitStC ∧
      (handleCommit commitRxC commitStC "f" 110).submitted = false := by
  decide

/-- C9 (amended): a run of the commit routine never decreases any
CurrentNonces entry; when the valid current vote set has converged — and it is
not the case that this node is a validator, the Agree threshold is met and its
own Agree rank does not exist (in which case the routine returns early with
the state unchanged) — it increments CurrentNonces[FnID] by exactly 1, stores
the vote set into PreviousMaj23VoteSets[FnID], updates PreviousValidatorSet
and clears CurrentVoteSets[FnID]; when the valid vote set has not converged,
CurrentNonces is unchanged. -/
theorem C9_amended_nonce_invariant (f : Reactor) (st : ReactorState) (fnID : String)
    (now : Int) :
    (∀ fnID2 : String,
      st.nonceOr0 fnID2 ≤ ((handleCommit f st fnID now).state).nonceOr0 fnID2) ∧
    (∀ cvs : FnVoteSet,
      (alookup f.fnRegistry fnID).isSome = true →
      alookup st.CurrentVoteSets fnID = some cvs →
      cvs.IsValid f.chainID MaxContextSize true ExpiresIn f.validators f.registryIDs now =
        true →
      cvs.HasConverged f.threshold f.validators = true →
      ¬((f.amIValidator).1 = true ∧ cvs.IsAgree f.threshold f.validators = true ∧
        cvs.GetAgreeVoteIndexForValidatorIndex (f.amIValidator).2 = none) →
      alookup (handleCommit f st fnID now).state.CurrentNonces fnID =
          some (st.nonceOr0 fnID + 1) ∧
        alookup (handleCommit f st fnID now).state.PreviousMaj23VoteSets fnID = some cvs ∧
        alookup (handleCommit f st fnID now).state.CurrentVoteSets fnID = none ∧
        (handleCommit f st fnID now).state.PreviousValidatorSet = some f.validators) ∧
    (∀ cvs : FnVoteSet,
      (alookup f.fnRegistry fnID).isSome = true →
      alookup st.CurrentVoteSets fnID = some cvs →
      cvs.IsValid f.chainID MaxContextSize true ExpiresIn f.validators f.registryIDs now =
        true →
      cvs.HasConverged f.threshold f.validators = false →
      (handleCommit f st fnID now).state.CurrentNonces = st.CurrentNonces ∧
        alookup (handleCommit f st fnID now).state.PreviousTimedOutVoteSets fnID = some cvs ∧
        alookup (handleCommit f st fnID now).state.CurrentVoteSets fnID = none) := by
  refine ⟨handleCommit_nonce_mono f st fnID now, ?_, ?_⟩
  · intro cvs hreg hcv hvalid hconv hne
    have hstate := handleCommit_advance_state f st fnID now cvs hreg hcv hvalid hconv hne
    have hlook := commitAdvanceState_lookups st fnID cvs f.validators
    rw [hstate]
    exact ⟨hlook.1, hlook.2.1, hlook.2.2.1, hlook.2.2.2.1⟩
  · intro cvs hreg hcv hvalid hnconv
    have hstate := (handleCommit_timedout_state f st fnID now cvs hreg hcv hvalid hnconv).1
    have hlook := commitTimedOutState_lookups st fnID cvs
    rw [hstate]
    exact hlook

/-- C9 witness: the amended claim evaluated on the converged
two-Agree-one-Disagree fixture and on the non-converged single-vote fixture. -/
theorem C9_witness :
    (commitStA.nonceOr0 "f" ≤ ((handleCommit commitRxA commitStA "f" 110).state).nonceOr0 "f") ∧
      alookup (handleCommit commitRxA commitStA "f" 110).state.CurrentNonces "f" =
        some (commitStA.nonceOr0 "f" + 1) ∧
      (handleCommit commitRxA commitStB "f" 110).state.CurrentNonces =
        commitStB.CurrentNonces ∧
      alookup (handleCommit commitRxA commitStB "f" 110).state.PreviousTimedOutVoteSets "f" =
        some sparseVoteSet :=
  ⟨(C9_amended_nonce_invariant commitRxA commitStA "f" 110).1 "f",
    ((C9_amended_nonce_invariant commitRxA commitStA "f" 110).2.1 commitVoteSetA
      (by decide) (by decide) (by decide) (by decide) (by decide)).1,
    ((C9_amended_nonce_invariant commitRxA commitStB "f" 110).2.2 sparseVoteSet
      (by decide) (by decide) (by decide) (by decide)).1,
    ((C9_amended_nonce_invariant commitRxA commitStB "f" 110).2.2 sparseVoteSet
      (by decide) (by decide) (by decide) (by decide)).2.1⟩

/-- C4: when the commit routine fires on a valid, converged vote set,
Fn.SubmitMultiSignedMessage is called iff this node is a validator, the Agree
threshold is met and its dense Agree rank r satisfies
`CurrentNonce mod numberOfAgreeVotes == r`; and the matching rank exists for
exactly one validator index, so exactly one validator submits per committed
nonce. -/
theorem C4_commit_submitter_selection (f : Reactor) (st : ReactorState) (fnID : String)
    (now : Int) (cvs : FnVoteSet)
    (hreg : (alookup f.fnRegistry fnID).isSome = true)
    (hcv : alookup st.CurrentVoteSets fnID = some cvs)
    (hvalid : cvs.IsValid f.chainID MaxContextSize true ExpiresIn f.validators
      f.registryIDs now = true)
    (hconv : cvs.HasConverged f.threshold f.validators = true)
    (hn : 0 ≤ st.nonceOr0 fnID)
    (hpos : 0 < cvs.NumberOfAgreeVotes) :
    ((handleCommit f st fnID now).submitted = true ↔
      ((f.amIValidator).1 = true ∧ cvs.IsAgree f.threshold f.validators = true ∧
        ∃ r : Nat, cvs.GetAgreeVoteIndexForValidatorIndex (f.amIValidator).2 = some r ∧
          goMod (st.nonceOr0 fnID) (cvs.NumberOfAgreeVotes : Int) = (r : Int))) ∧
    (∃! i : Nat, i < cvs.Votes.length ∧
      cvs.Votes.getD i VoteType.unvoted = VoteType.agree ∧
      FnVoteSet.agreeRank cvs.Votes i =
        (goMod (st.nonceOr0 fnID) (cvs.NumberOfAgreeVotes : Int)).toNat) := by
  constructor
  · exact handleCommit_submitted_iff f st fnID now cvs hreg hcv hvalid hconv
  · have hmeq : goMod (st.nonceOr0 fnID) (cvs.NumberOfAgreeVotes : Int) =
        (st.nonceOr0 fnID) % ((cvs.NumberOfAgreeVotes : Int)) :=
      Int.tmod_eq_emod hn (by omega)
    have hbne : ((cvs.NumberOfAgreeVotes : Int)) ≠ 0 := by omega
    have hbpos : (0 : Int) < (cvs.NumberOfAgreeVotes : Int) := by omega
    have h0 := Int.emod_nonneg (st.nonceOr0 fnID) hbne
    have h1 := Int.emod_lt_of_pos (st.nonceOr0 fnID) hbpos
    have hk : (goMod (st.nonceOr0 fnID) (cvs.NumberOfAgreeVotes : Int)).toNat <
        cvs.NumberOfAgreeVotes := by
      rw [hmeq]; omega
    have hk2 : (goMod (st.nonceOr0 fnID) (cvs.NumberOfAgreeVotes : Int)).toNat <
        FnVoteSet.agreeRank cvs.Votes cvs.Votes.length := by
      rw [← FnVoteSet.numberOfAgreeVotes_eq_agreeRank]; exact hk
    exact FnVoteSet.exists_unique_agree_of_rank cvs.Votes _ hk2

/-- C4 witness: the submitter selection evaluated at a concrete two-validator
vote set, nonce 4 (4 mod 2 = 0 equals our rank 0). -/
theorem C4_witness :
    ((handleCommit commitRxD commitStD "f" 110).submitted = true ↔
      ((Reactor.amIValidator commitRxD).1 = true ∧
        submitVoteSet.IsAgree Maj23SigningThreshold valsTwo = true ∧
        ∃ r : Nat, submitVoteSet.GetAgreeVoteIndexForValidatorIndex
            (Reactor.amIValidator commitRxD).2 = some r ∧
          goMod (commitStD.nonceOr0 "f") ((submitVoteSet.NumberOfAgreeVotes : Int)) =
            (r : Int))) ∧
    (∃! i : Nat, i < submitVoteSet.Votes.length ∧
      submitVoteSet.Votes.getD i VoteType.unvoted = VoteType.agree ∧
      FnVoteSet.agreeRank submitVoteSet.Votes i =
        (goMod (commitStD.nonceOr0 "f")
          ((submitVoteSet.NumberOfAgreeVotes : Int))).toNat) :=
  C4_commit_submitter_selection commitRxD commitStD "f" 110 submitVoteSet
    (by decide) (by decide) (by decide) (by decide) (by decide) (by decide)

/-- C5 counterexample: (1) with both vote sets threshold-met via Disagree and
neither agree-threshold-met, the remote set has strictly more total votes yet
compareVoteSets keeps the local set; (2) with both agree-threshold-met, equal
vote counts and an older local set, compareVoteSets lets the remote (newer)
set win instead of keeping the claimed older winner. -/
theorem C5_counterexample :
    ((disagreeCur.ID == disagreeRem.ID) = false ∧
      (disagreeCur.IsAgree Maj23SigningThreshold valsFour ||
        disagreeCur.IsDisagree Maj23SigningThreshold valsFour) = true ∧
      (disagreeRem.IsAgree Maj23SigningThreshold valsFour ||
        disagreeRem.IsDisagree Maj23SigningThreshold valsFour) = true ∧
      disagreeCur.IsAgree Maj23SigningThreshold valsFour = false ∧
      disagreeRem.IsAgree Maj23SigningThreshold valsFour = false ∧
      disagreeRem.NumberOfVotes = 4 ∧ disagreeCur.NumberOfVotes = 3 ∧
      compareVoteSets compareRx disagreeRem (some disagreeCur) 1 valsFour = -1) ∧
    ((agreeOldCur.ID == agreeNewRem.ID) = false ∧
      agreeOldCur.IsAgree Maj23SigningThreshold valsFour = true ∧
      agreeNewRem.IsAgree Maj23SigningThreshold valsFour = true ∧
      agreeOldCur.NumberOfVotes = agreeNewRem.NumberOfVotes ∧
      agreeOldCur.NumberOfAgreeVotes = agreeNewRem.NumberOfAgreeVotes ∧
      agreeOldCur.CreationTime < agreeNewRem.CreationTime ∧
      compareVoteSets compareRx agreeNewRem (some agreeOldCur) 1 valsFour = 1) := by
  decide

/-- C5 witness: the amended tie-break evaluated on the concrete
both-agree-met pair and on the neither-agree-met pair. -/
theorem C5_witness :
    (compareVoteSets compareRx agreeNewRem (some agreeOldCur) 1 valsFour =
      specTieBreakResult agreeOldCur agreeNewRem) ∧
    (compareVoteSets compareRx disagreeRem (some disagreeCur) 1 valsFour = -1) :=
  ⟨(C5_amended_compare_tiebreak compareRx agreeNewRem agreeOldCur 1 valsFour
      (by decide) (by decide) (by decide)).1 (by decide) (by decide),
    (C5_amended_compare_tiebreak compareRx disagreeRem disagreeCur 1 valsFour
      (by decide) (by decide) (by decide)).2 (by decide) (by decide)⟩

/-- C8: when the freshly created vote set already satisfies the Agree
threshold with only the proposer's own vote, propose calls
Fn.SubmitMultiSignedMessage immediately and returns leaving ReactorState
unchanged: no vote set stored, no commit timer started, nothing persisted, no
gossip. -/
theorem C8_single_validator_shortcut (f : Reactor) (st : ReactorState) (fnID : String)
    (fn : Fn) (pInfo : Option ProposalInfo) (validatorIndex : Int) (vsID : String) (now : Int)
    (ctx message signature : Bytes)
    (hprep : fn.prepareContext = some (true, ctx))
    (hlen : ctx.length ≤ MaxContextSize)
    (hmsg : fn.getMessageAndSignature ctx = some (message, signature))
    (hmap : fn.mapMessageOk = true)
    (hreg : (alookup f.fnRegistry fnID).isSome = true)
    (hagree : (NewVoteSet vsID ((alookup st.CurrentNonces fnID).getD 1) f.chainID
        validatorIndex ctx
        ⟨⟨fnID⟩, NewFnExecutionResponse ⟨"", calculateMessageHash message, signature, 0⟩
          validatorIndex f.validators⟩
        f.validators pInfo now).IsAgree f.threshold f.validators = true) :
    propose f st fnID fn pInfo validatorIndex vsID now =
      ⟨st, true, false, false, []⟩ := by
  obtain ⟨fn2, hfn2⟩ := Option.isSome_iff_exists.mp hreg
  unfold propose
  simp only [hprep]
  simp only [hmsg]
  simp [Nat.not_lt.mpr hlen, hmap, hfn2, hagree]

/-- C8 witness: the single-validator shortcut evaluated at a concrete
one-validator reactor. -/
theorem C8_witness :
    propose proposeRx emptyState "f" fnStub none 0 "vsid" 100 =
      ⟨emptyState, true, false, false, []⟩ :=
  C8_single_validator_shortcut proposeRx emptyState "f" fnStub none 0 "vsid" 100
    [] [] [7] rfl (by decide) rfl rfl (by decide) (by decide)

/-- C10: on startup, every registered FnID whose persisted current vote set is
expired has that vote set deleted (and, unlike the progress tick, not archived
into PreviousTimedOutVoteSets); non-expired current vote sets and every other
state field are unchanged, and the state is saved. -/
theorem C10_onstart_cleanup (f : Reactor) (st : ReactorState) (now : Int) :
    (∀ fnID ∈ f.registryIDs, ∀ cvs : FnVoteSet,
      alookup st.CurrentVoteSets fnID = some cvs →
      cvs.IsExpired ExpiresIn now = true →
      alookup (OnStart f st now).1.CurrentVoteSets fnID = none) ∧
    (∀ (fnID : String) (cvs : FnVoteSet),
      alookup st.CurrentVoteSets fnID = some cvs →
      cvs.IsExpired ExpiresIn now = false →
      alookup (OnStart f st now).1.CurrentVoteSets fnID = some cvs) ∧
    (OnStart f st now).1.PreviousTimedOutVoteSets = st.PreviousTimedOutVoteSets ∧
    (OnStart f st now).1.PreviousMaj23VoteSets = st.PreviousMaj23VoteSets ∧
    (OnStart f st now).1.CurrentNonces = st.CurrentNonces ∧
    (OnStart f st now).1.CurrentProposalInfo = st.CurrentProposalInfo ∧
    (OnStart f st now).1.PreviousValidatorSet = st.PreviousValidatorSet ∧
    (OnStart f st now).2 = true := by
  have hf := onStartCleanup_fields f.registryIDs st now
  exact ⟨fun fnID hmem cvs h hexp =>
      onStartCleanup_expired_deleted f.registryIDs st now fnID cvs hmem h hexp,
    fun fnID cvs h hne => onStartCleanup_not_expired f.registryIDs st now fnID cvs h hne,
    hf.1, hf.2.1, hf.2.2.1, hf.2.2.2.1, hf.2.2.2.2, rfl⟩

/-- C10 witness: the cleanup evaluated at a state holding one expired and one
fresh vote set. -/
theorem C10_witness :
    alookup (OnStart onStartRx onStartSt 100).1.CurrentVoteSets "f" = none ∧
      alookup (OnStart onStartRx onStartSt 100).1.CurrentVoteSets "g" = some freshVoteSet ∧
      (OnStart onStartRx onStartSt 100).1.PreviousTimedOutVoteSets =
        onStartSt.PreviousTimedOutVoteSets ∧
      (OnStart onStartRx onStartSt 100).2 = true :=
  ⟨(C10_onstart_cleanup onStartRx onStartSt 100).1 "f" (by decide) expiredVoteSet
      (by decide) (by decide),
    (C10_onstart_cleanup onStartRx onStartSt 100).2.1 "g" freshVoteSet (by decide) (by decide),
    (C10_onstart_cleanup onStartRx onStartSt 100).2.2.1,
    (C10_onstart_cleanup onStartRx onStartSt 100).2.2.2.2.2.2.2⟩

/-- C6: in the Maj23 handler, for every valid, expired, converged remote vote
set (validated here against the current validator set): if its nonce is at
least the current nonce it is installed as the previous Maj23 vote set, the
nonce becomes remote.Nonce + 1, PreviousValidatorSet and CurrentProposalInfo
are updated and it is rebroadcast to all connected peers; if its nonce is
exactly one behind and no previous Maj23 vote set is stored, it is stored
without advancing the nonce and without rebroadcast; otherwise it is dropped
with no state change. -/
theorem C6_maj23_handler (f : Reactor) (st : ReactorState) (sender : String)
    (remote : FnVoteSet) (now : Int)
    (hv : remote.IsValid f.chainID MaxContextSize false ExpiresInForSync f.validators
      f.registryIDs now = true)
    (he : remote.IsExpired ExpiresIn now = true)
    (hc : remote.HasConverged f.threshold f.validators = true) :
    (((alookup st.CurrentNonces remote.GetFnID).getD 1) ≤ remote.Nonce →
      alookup (handleMaj23VoteSetChannel f st sender remote now).state.PreviousMaj23VoteSets
          remote.GetFnID = some remote ∧
        alookup (handleMaj23VoteSetChannel f st sender remote now).state.CurrentNonces
          remote.GetFnID = some (remote.Nonce + 1) ∧
        (handleMaj23VoteSetChannel f st sender remote now).state.PreviousValidatorSet =
          some f.validators ∧
        alookup (handleMaj23VoteSetChannel f st sender remote now).state.CurrentProposalInfo
          remote.GetFnID = some remote.ProposalInfo ∧
        (handleMaj23VoteSetChannel f st sender remote now).broadcastPeers =
          f.connectedPeers) ∧
    (remote.Nonce = ((alookup st.CurrentNonces remote.GetFnID).getD 1) - 1 →
      alookup st.PreviousMaj23VoteSets remote.GetFnID = none →
      alookup (handleMaj23VoteSetChannel f st sender remote now).state.PreviousMaj23VoteSets
          remote.GetFnID = some remote ∧
        (handleMaj23VoteSetChannel f st sender remote now).state.CurrentNonces =
          st.CurrentNonces ∧
        (handleMaj23VoteSetChannel f st sender remote now).broadcastPeers = []) ∧
    (remote.Nonce < ((alookup st.CurrentNonces remote.GetFnID).getD 1) →
      (remote.Nonce ≠ ((alookup st.CurrentNonces remote.GetFnID).getD 1) - 1 ∨
        (alookup st.PreviousMaj23VoteSets remote.GetFnID).isSome = true) →
      (handleMaj23VoteSetChannel f st sender remote now).state = st ∧
        (handleMaj23VoteSetChannel f st sender remote now).broadcastPeers = []) := by
  unfold handleMaj23VoteSetChannel
  simp only [hv, he, hc, if_true, Bool.not_true, Bool.false_eq_true, if_false]
  refine ⟨?_, ?_, ?_⟩
  · intro hge
    rw [if_neg (by omega)]
    simp
  · intro heq hnone
    rw [if_pos (by omega)]
    simp [heq, hnone]
  · intro hlt hside
    rw [if_pos hlt]
    rcases hside with hne | hsome
    · have hb : (remote.Nonce == (alookup st.CurrentNonces remote.GetFnID).getD 1 - 1) =
          false := by simp [hne]
      simp [hb]
    · obtain ⟨v, hv2⟩ := Option.isSome_iff_exists.mp hsome
      simp [hv2]

/-- C6 witness: the Maj23 handler evaluated at nonce 17 against an empty state
(install and rebroadcast), a state at nonce 18 with no stored Maj23 (store
without advancing), and a state at nonce 30 (drop). -/
theorem C6_witness :
    (alookup (handleMaj23VoteSetChannel maj23Rx emptyState "s" maj23Remote 100).state.CurrentNonces
        maj23Remote.GetFnID = some (maj23Remote.Nonce + 1) ∧
      (handleMaj23VoteSetChannel maj23Rx emptyState "s" maj23Remote 100).broadcastPeers =
        maj23Rx.connectedPeers) ∧
    (alookup (handleMaj23VoteSetChannel maj23Rx maj23StBehind "s" maj23Remote
          100).state.PreviousMaj23VoteSets maj23Remote.GetFnID = some maj23Remote ∧
      (handleMaj23VoteSetChannel maj23Rx maj23StBehind "s" maj23Remote 100).state.CurrentNonces =
        maj23StBehind.CurrentNonces ∧
      (handleMaj23VoteSetChannel maj23Rx maj23StBehind "s" maj23Remote 100).broadcastPeers =
        []) ∧
    ((handleMaj23VoteSetChannel maj23Rx maj23StAhead "s" maj23Remote 100).state =
        maj23StAhead ∧
      (handleMaj23VoteSetChannel maj23Rx maj23StAhead "s" maj23Remote 100).broadcastPeers =
        []) :=
  ⟨by
      have h := (C6_maj23_handler maj23Rx emptyState "s" maj23Remote 100
        (by decide) (by decide) (by decide)).1 (by decide)
      exact ⟨h.2.1, h.2.2.2.2⟩,
    (C6_maj23_handler maj23Rx maj23StBehind "s" maj23Remote 100
      (by decide) (by decide) (by decide)).2.1 (by decide) (by decide),
    (C6_maj23_handler maj23Rx maj23StAhead "s" maj23Remote 100
      (by decide) (by decide) (by decide)).2.2 (by decide) (by decide)⟩

/-- C7 counterexample: a remote vote set from the sender is merged into the
local one (same ID, the merge changes it), this node is not a validator so the
merge is the only change — yet the updated vote set is gossiped to all
connected peers including the sender, against the claimed exclusion. -/
theorem C7_counterexample :
    (gossipCur.ID == gossipRem.ID) = true ∧
      (gossipCur.Merge valsTwo gossipRem).map Prod.fst = some true ∧
      (Reactor.amIValidator gossipRx).1 = false ∧
      (handleVoteSetChannelMessage gossipRx gossipSt "sender" gossipRem 110).gossipPeers =
        ["peerA", "sender"] := by
  decide

/-- C7 (amended): whenever the local vote set changed, it is re-serialized and
gossiped: to all connected peers including the sender both when the change
came from merging the sender's payload (even with no new local contribution)
and when this node added its own vote, and to all connected peers except the
sender exactly when the remote vote set replaced the local one and this node
did not add its own vote. -/
theorem C7_amended_gossip_exclusion :
    (∀ (f : Reactor) (st : ReactorState) (sender : String) (remote cur : FnVoteSet)
      (n now : Int),
      remote.IsValid f.chainID MaxContextSize true ExpiresInForSync f.validators
        f.registryIDs now = true →
      alookup st.CurrentNonces remote.GetFnID = some n →
      ¬ n > remote.Nonce →
      alookup st.CurrentVoteSets remote.GetFnID = some cur →
      (cur.ID == remote.ID) = true →
      (cur.Merge f.validators remote).map Prod.fst = some true →
      (f.amIValidator).1 = false →
      (handleVoteSetChannelMessage f st sender remote now).gossipPeers = f.connectedPeers) ∧
    (∀ (f : Reactor) (st : ReactorState) (sender : String) (remote cur : FnVoteSet)
      (n now i : Int) (fn : Fn) (message signature : Bytes),
      remote.IsValid f.chainID MaxContextSize true ExpiresInForSync f.validators
        f.registryIDs now = true →
      alookup st.CurrentNonces remote.GetFnID = some n →
      ¬ n > remote.Nonce →
      alookup st.CurrentVoteSets remote.GetFnID = some cur →
      compareVoteSets f remote (some cur) n f.validators = -1 →
      f.amIValidator = (true, i) →
      cur.HaveWeAlreadySigned i = false →
      alookup f.fnRegistry remote.GetFnID = some fn →
      fn.getMessageAndSignature cur.ExecutionContext = some (message, signature) →
      fn.mapMessageOk = true →
      (cur.GetMessageHash == calculateMessageHash message) = true →
      (cur.AddVote n ⟨"", calculateMessageHash message, signature, 0⟩ f.validators i
        VoteType.agree).isSome = true →
      (handleVoteSetChannelMessage f st sender remote now).gossipPeers = f.connectedPeers) ∧
    (∀ (f : Reactor) (st : ReactorState) (sender : String) (remote : FnVoteSet)
      (n now : Int),
      remote.IsValid f.chainID MaxContextSize true ExpiresInForSync f.validators
        f.registryIDs now = true →
      alookup st.CurrentNonces remote.GetFnID = some n →
      alookup st.CurrentVoteSets remote.GetFnID = none →
      n = remote.Nonce →
      (f.amIValidator).1 = false →
      (handleVoteSetChannelMessage f st sender remote now).gossipPeers =
        f.connectedPeers.filter (fun peerID => peerID != sender)) := by
  refine ⟨?_, ?_, ?_⟩
  · intro f st sender remote cur n now hval hnon hle hcv hid hmerge hwe
    have hcomp : compareVoteSets f remote (some cur) n f.validators = 0 := by
      unfold compareVoteSets
      simp [hid]
    obtain ⟨p, hp, hp1⟩ : ∃ p, cur.Merge f.validators remote = some p ∧ p.1 = true := by
      rcases hm : cur.Merge f.validators remote with _ | p
      · rw [hm] at hmerge; cases hmerge
      · rw [hm] at hmerge
        exact ⟨p, rfl, by simpa using hmerge⟩
    obtain ⟨b, merged⟩ := p
    rw [show b = true from hp1] at hp
    unfold handleVoteSetChannelMessage
    simp only [hval, hnon, Bool.not_true, Bool.false_eq_true, if_false, if_true]
    rw [if_neg hle]
    rw [hcv, hcomp]
    simp only [hp]
    unfold voteThenGossip
    simp [hwe]
  · intro f st sender remote cur n now i fn message signature hval hnon hle hcv hcomp hwe
      hsig hfn hmsg hmap hhash hadd
    obtain ⟨newVS, hnew⟩ := Option.isSome_iff_exists.mp hadd
    unfold handleVoteSetChannelMessage
    simp only [hval, hnon, Bool.not_true, Bool.false_eq_true, if_false, if_true]
    rw [if_neg hle]
    rw [hcv, hcomp]
    unfold voteThenGossip
    rw [hwe]
    simp only [hsig, hfn, hmsg, hmap, hhash, hnew]
    simp
  · intro f st sender remote n now hval hnon hcv heqn hwe
    have hcomp : compareVoteSets f remote none n f.validators = 1 := by
      unfold compareVoteSets
      simp [heqn]
    unfold handleVoteSetChannelMessage
    simp only [hval, hnon, Bool.not_true, Bool.false_eq_true, if_false, if_true]
    rw [if_neg (by omega)]
    rw [hcv, hcomp]
    unfold voteThenGossip
    simp [hwe]

/-- C7 witness: the three gossip outcomes evaluated at concrete inputs — a
sender-payload merge (gossip to all including the sender), an own-vote
addition (gossip to all), and a replacement without an own vote (gossip to
all but the sender). -/
theorem C7_witness :
    ((handleVoteSetChannelMessage gossipRx gossipSt "sender" gossipRem 110).gossipPeers =
      gossipRx.connectedPeers) ∧
    ((handleVoteSetChannelMessage voteAddRx voteAddSt "sender" voteAddRem 110).gossipPeers =
      voteAddRx.connectedPeers) ∧
    ((handleVoteSetChannelMessage gossipRx replaceSt "sender" gossipRem 110).gossipPeers =
      gossipRx.connectedPeers.filter (fun peerID => peerID != "sender")) :=
  ⟨C7_amended_gossip_exclusion.1 gossipRx gossipSt "sender" gossipRem gossipCur 1 110
      (by decide) (by decide) (by decide) (by decide) (by decide) (by decide) (by decide),
    C7_amended_gossip_exclusion.2.1 voteAddRx voteAddSt "sender" voteAddRem voteAddCur 1 110
      2 fnStub [] [7] (by decide) (by decide) (by decide) (by decide) (by decide) (by decide)
      (by decide) rfl rfl rfl (by decide) (by decide),
    C7_amended_gossip_exclusion.2.2 gossipRx replaceSt "sender" gossipRem 1 110
      (by decide) (by decide) (by decide) (by decide) (by decide)⟩

end FnConsensus
